import Mathlib

/-!
Verification development for the zero-log-parser repository
(`zero_log_parser.py`): a shallow embedding in Lean 4 of the byte-level
primitive codec, the escape codec, the ring-buffer and fencepost frame
segmenters, the Gen2 record-decoder registry and the Gen3 free-text
condition decomposition, together with theorems settling the frozen
claims about them.

Modelling conventions:
- Byte buffers (Python `bytearray` / `bytes`) are `List Nat`, entries
  understood to lie in `[0, 256)`.
- Python text (`str`) is Lean `String`; the Python string operations the
  source uses (`split`, `strip`, `startswith`, ...) are re-implemented
  below on `String.data` so that every concrete computation reduces in
  the kernel.
- Code that can raise a Python exception is embedded with `Option` (a
  local failure of one operation) or `Except String` (an exception that
  escapes a whole function); `none` / `.error` mark exactly the inputs
  on which the Python raises.
- Python `float` arithmetic in the Gen2 condition formatters is modelled
  as exact rational arithmetic (`ℚ`) with round-half-to-even formatting.
  For values of the form `n / 1000` or integer truncations appearing in
  the source this coincides with IEEE double behaviour; none of the
  theorems below inspect a float-formatted field.
- Logging calls (`logger.warning` etc.) are side effects with no
  influence on the returned data and are not represented.
-/

set_option maxRecDepth 8000

/-! ### Python slice and list primitives -/

/-- Python `l[a:b]` for non-negative `a`, `b` (clamped, empty when `a ≥ b`). -/
def pySlice (l : List Nat) (a b : Nat) : List Nat := (l.take b).drop a

/-- Python `l[a:]` for non-negative `a`. -/
def pyDrop (l : List Nat) (a : Nat) : List Nat := l.drop a

/-- Normalise a (possibly negative) Python slice index against a length:
negative indexes count from the end, then clamp to `[0, len]`. -/
def pyIndex (len : Nat) (i : Int) : Nat :=
  if i < 0 then (((len : Int) + i).toNat) else min i.toNat len

/-- Python `l[a:b]` with signed bounds (as in `raw_log[event_start - 4: ...]`). -/
def pySliceInt (l : List Nat) (a b : Int) : List Nat :=
  pySlice l (pyIndex l.length a) (pyIndex l.length b)

/-- Python `l[a:]` with a signed start. -/
def pyDropInt (l : List Nat) (a : Int) : List Nat := l.drop (pyIndex l.length a)

/-- First index `i ≥ start` at which `pat` occurs as a sub-sequence of `l`
(Python `bytearray.index` / `find` of a multi-byte needle). -/
def subIndexFrom (pat l : List Nat) (start : Nat) : Option Nat :=
  (List.range (l.length + 1)).find? (fun i =>
    start ≤ i && decide ((l.drop i).take pat.length = pat))

/-- `LogFile.index_of_sequence`: `None` when the sequence is absent. -/
def index_of_sequence (data : List Nat) (sequence : List Nat) (start : Nat) :
    Option Nat :=
  subIndexFrom sequence data start

/-- Number of occurrences of the single byte `b` (Python
`bytearray.count(b'\xb2')` for a one-byte needle). -/
def countByte (l : List Nat) (b : Nat) : Nat := (l.filter (fun x => x = b)).length

/-! ### Character / string primitives mirroring the Python `str` methods -/

/-- Membership in Python's `string.printable`: ASCII `0x20`–`0x7e` plus the
whitespace characters TAB, LF, VT, FF, CR. -/
def pyPrintableChar (c : Char) : Bool :=
  (32 ≤ c.toNat && c.toNat ≤ 126) || (9 ≤ c.toNat && c.toNat ≤ 13)

/-- Python whitespace as stripped by `str.strip()` (ASCII range; the inputs
the source strips are ASCII). -/
def pySpaceChar (c : Char) : Bool :=
  c.toNat = 32 || (9 ≤ c.toNat && c.toNat ≤ 13)

/-- Python `str.strip()`. -/
def pyStrip (s : String) : String :=
  String.mk (((s.data.dropWhile pySpaceChar).reverse.dropWhile pySpaceChar).reverse)

/-- Python `str.rstrip(chars)` for a single strip character. -/
def pyRstripChar (s : String) (c : Char) : String :=
  String.mk ((s.data.reverse.dropWhile (fun x => x = c)).reverse)

/-- Python `str.startswith`. -/
def pyStartswith (s pre : String) : Bool := s.data.take pre.data.length = pre.data

/-- First index at which the pattern occurs in the character list. -/
def charSubIndex (pat l : List Char) : Option Nat :=
  (List.range (l.length + 1)).find? (fun i => decide ((l.drop i).take pat.length = pat))

/-- Python `sep in s` (substring containment, `sep` non-empty). -/
def pyContains (s sep : String) : Bool := (charSubIndex sep.data s.data).isSome

/-- Last index at which the pattern occurs (used for greedy `(.*)` groups). -/
def charSubIndexLast (pat l : List Char) : Option Nat :=
  ((List.range (l.length + 1)).filter (fun i =>
    decide ((l.drop i).take pat.length = pat))).getLast?

/-- Python `s.split(sep)` for a non-empty separator (full split). The fuel is
the list length, which bounds the number of separators. -/
def splitListAux (sep : List Char) (l : List Char) (fuel : Nat) : List (List Char) :=
  match fuel with
  | 0 => [l]
  | fuel + 1 =>
    match charSubIndex sep l with
    | none => [l]
    | some i => l.take i :: splitListAux sep (l.drop (i + sep.length)) fuel

/-- Python `s.split(sep)` on strings. -/
def pySplit (s sep : String) : List String :=
  (splitListAux sep.data s.data (s.data.length + 1)).map String.mk

/-- Python `s.split(sep, maxsplit=1)`, returned as the two sides and a flag
telling whether the separator was found. -/
def pySplitOnce (s sep : String) : Bool × String × String :=
  match charSubIndex sep.data s.data with
  | none => (false, s, "")
  | some i => (true, String.mk (s.data.take i), String.mk (s.data.drop (i + sep.data.length)))

/-- Python `sep.join(parts)`. -/
def pyJoin (sep : String) (parts : List String) : String :=
  String.intercalate sep parts

/-- Python `str.upper()` on ASCII text (the source applies it to a filename). -/
def pyUpperChar (c : Char) : Char :=
  if 97 ≤ c.toNat && c.toNat ≤ 122 then Char.ofNat (c.toNat - 32) else c

/-- Python `str.upper`. -/
def pyUpper (s : String) : String := String.mk (s.data.map pyUpperChar)

/-- Python `str.lower()` on ASCII text (applied to the `unpack` type name). -/
def pyLowerChar (c : Char) : Char :=
  if 65 ≤ c.toNat && c.toNat ≤ 90 then Char.ofNat (c.toNat + 32) else c

/-- Python `str.lower`. -/
def pyLower (s : String) : String := String.mk (s.data.map pyLowerChar)

/-! ### Numeric rendering helpers (Python `format` specs used by the source) -/

/-- Decimal digits of a natural number (no sign). -/
def natDecimal (n : Nat) : String := toString n

/-- Pad on the left with a fill character up to a minimum width. -/
def padLeft (s : String) (w : Nat) (fill : Char) : String :=
  String.mk (List.replicate (w - s.data.length) fill) ++ s

/-- Pad on the right (Python `{:13s}` left-justifies strings). -/
def padRight (s : String) (w : Nat) (fill : Char) : String :=
  s ++ String.mk (List.replicate (w - s.data.length) fill)

/-- Python `'{:Nd}'.format(v)`: right-aligned, space padded. -/
def fmtIntWidth (v : Int) (w : Nat) : String := padLeft (toString v) w ' '

/-- Python `'{:0Nd}'.format(v)`: zero padded, sign before the zeros. -/
def fmtIntZero (v : Int) (w : Nat) : String :=
  if v < 0 then "-" ++ padLeft (toString (-v)) (w - 1) '0'
  else padLeft (toString v) w '0'

/-- Binary digit string of a natural number, `'{0:b}'.format` (0 renders "0"). -/
def binDigits (n : Nat) : String :=
  String.mk ((Nat.toDigits 2 n))

/-- Python `'{:0Nb}'.format(v)`. -/
def fmtBinZero (v : Nat) (w : Nat) : String := padLeft (binDigits v) w '0'

/-- Lower-case hexadecimal digits of a byte, width 2 (`'0x{:02x}'` without the
`0x`). -/
def hexDigitLower (n : Nat) : Char :=
  if n < 10 then Char.ofNat (48 + n) else Char.ofNat (87 + n)

/-- `'{:02x}'.format(c)` for a byte. -/
def hex2Lower (c : Nat) : String :=
  String.mk [hexDigitLower (c / 16 % 16), hexDigitLower (c % 16)]

/-- Upper-case variant `'{:02X}'.format(c)` for a byte. -/
def hexDigitUpper (n : Nat) : Char :=
  if n < 10 then Char.ofNat (48 + n) else Char.ofNat (55 + n)

/-- `'{:02X}'.format(c)` for a byte. -/
def hex2Upper (c : Nat) : String :=
  String.mk [hexDigitUpper (c / 16 % 16), hexDigitUpper (c % 16)]

/-- Round a rational to the nearest integer, ties to even (the rounding IEEE
`printf`-style formatting applies). -/
def roundHalfEven (q : ℚ) : Int :=
  let f := q.floor
  let r := q - (f : ℚ)
  if r < 1/2 then f
  else if r > 1/2 then f + 1
  else if f % 2 = 0 then f else f + 1

/-- Python `'{:W.Pf}'.format(q)` (space padding on the left, `W` may be 0).
When `zero` is set the padding uses zeros after the sign (`{:0W.Pf}`). -/
def fmtFixed (q : ℚ) (prec : Nat) (w : Nat) (zero : Bool) : String :=
  let scaled := roundHalfEven (q * (10 ^ prec : Nat))
  let neg := scaled < 0
  let a := scaled.natAbs
  let ip := a / 10 ^ prec
  let fp := a % 10 ^ prec
  let body :=
    natDecimal ip ++ (if prec = 0 then "" else "." ++ padLeft (natDecimal fp) prec '0')
  if zero then
    if neg then "-" ++ padLeft body (w - 1) '0' else padLeft body w '0'
  else
    padLeft ((if neg then "-" else "") ++ body) w ' '

/-! ### `BinaryTools`: the primitive codec -/

/-- The values Python's `struct.unpack_from` plus the `TYPE_CONVERSIONS` table
can produce for the supported type characters.  IEEE interpretation of the
`float`/`double` characters is kept as the raw little-endian bit pattern: no
caller in the source unpacks a float type. -/
inductive PyVal where
  | int (i : Int)
  | bool (b : Bool)
  | bytes (bs : List Nat)
  | floatRaw (bits : Nat)
  deriving DecidableEq, Repr

/-- `BinaryTools.TYPES`: type name → `struct` format character. -/
def TYPES (t : String) : Option Char :=
  if t = "int8" then some 'b'
  else if t = "uint8" then some 'B'
  else if t = "int16" then some 'h'
  else if t = "uint16" then some 'H'
  else if t = "int32" then some 'l'
  else if t = "uint32" then some 'L'
  else if t = "int64" then some 'q'
  else if t = "uint64" then some 'Q'
  else if t = "float" then some 'f'
  else if t = "double" then some 'd'
  else if t = "char" then some 's'
  else if t = "bool" then some '?'
  else none

/-- Element size in bytes of one value of a `struct` format character
(`'s'` is sized by the repeat count instead). -/
def structElemSize (c : Char) : Nat :=
  if c = 'b' || c = 'B' || c = '?' then 1
  else if c = 'h' || c = 'H' then 2
  else if c = 'l' || c = 'L' || c = 'f' then 4
  else if c = 'q' || c = 'Q' || c = 'd' then 8
  else 1

/-- `struct.calcsize('<{count}{c}')`: for `'s'` the count is the byte length,
otherwise `count` values of the element size. -/
def structCalcsize (c : Char) (count : Nat) : Nat :=
  if c = 's' then count else count * structElemSize c

/-- Little-endian unsigned integer value of a byte list. -/
def leUintOfBytes : List Nat → Nat
  | [] => 0
  | b :: rest => b + 256 * leUintOfBytes rest

/-- Big-endian unsigned integer value of a byte list (Python
`int.from_bytes(..., byteorder='big')`). -/
def beUintOfBytes (l : List Nat) : Nat := leUintOfBytes l.reverse

/-- Two's-complement reading of an unsigned value of `bits` bits. -/
def toSignedInt (bits : Nat) (v : Nat) : Int :=
  if v < 2 ^ (bits - 1) then (v : Int) else (v : Int) - 2 ^ bits

/-- Decode the first element of an unpacked field (the source keeps only
`[0]` of the tuple `struct.unpack_from` returns). `bytes` is the slice of
`structElemSize c` bytes at the read address. -/
def decodeElem (c : Char) (bytes : List Nat) : PyVal :=
  if c = 'B' then .int (leUintOfBytes (bytes.take 1))
  else if c = 'b' then .int (toSignedInt 8 (leUintOfBytes (bytes.take 1)))
  else if c = 'H' then .int (leUintOfBytes (bytes.take 2))
  else if c = 'h' then .int (toSignedInt 16 (leUintOfBytes (bytes.take 2)))
  else if c = 'L' then .int (leUintOfBytes (bytes.take 4))
  else if c = 'l' then .int (toSignedInt 32 (leUintOfBytes (bytes.take 4)))
  else if c = 'Q' then .int (leUintOfBytes (bytes.take 8))
  else if c = 'q' then .int (toSignedInt 64 (leUintOfBytes (bytes.take 8)))
  else if c = '?' then .bool (leUintOfBytes (bytes.take 1) ≠ 0)
  else if c = 'f' then .floatRaw (leUintOfBytes (bytes.take 4))
  else .floatRaw (leUintOfBytes (bytes.take 8))

/-- Core of `BinaryTools.unpack` once the format character is known: the
buffer is padded with 32 zero bytes (`buff + bytearray(32)`), the read must
fit inside the padded buffer (`struct.error` otherwise, modelled `none`), a
negative repeat count is an invalid format (`struct.error`), and a zero
repeat count of a numeric type makes `unpacked[0]` an `IndexError`. -/
def unpackCore (c : Char) (buff : List Nat) (addrOff : Nat) (count : Int) :
    Option PyVal :=
  if count < 0 then none
  else
    let cnt := count.toNat
    let padded := buff ++ List.replicate 32 0
    let sz := structCalcsize c cnt
    if padded.length < addrOff + sz then none
    else
      let field := (padded.drop addrOff).take sz
      if c = 's' then some (.bytes field)
      else if cnt = 0 then none
      else some (decodeElem c (field.take (structElemSize c)))

/-- `BinaryTools.unpack(type_name, buff, address, count, offset)`. -/
def unpack (type_name : String) (buff : List Nat) (address : Nat)
    (count : Int) (offset : Nat) : Option PyVal :=
  match TYPES (pyLower type_name) with
  | none => none
  | some c => unpackCore c buff (address + offset) count

/-- Convenience accessors for call sites where the source's read always
succeeds and yields an integer (reads of ≤ 32 bytes at small offsets never
escape the 32-byte padding). -/
def unpackNat (t : String) (x : List Nat) (a : Nat) : Nat :=
  match unpack t x a 1 0 with
  | some (.int i) => i.toNat
  | _ => 0

/-- Signed variant of `unpackNat`. -/
def unpackInt (t : String) (x : List Nat) (a : Nat) : Int :=
  match unpack t x a 1 0 with
  | some (.int i) => i
  | _ => 0

/-- Boolean variant (`unpack('bool', ...)`). -/
def unpackBool (x : List Nat) (a : Nat) : Bool :=
  match unpack "bool" x a 1 0 with
  | some (.bool b) => b
  | _ => false

/-- Byte-string variant (`unpack('char', ...)`), `[]` on failure. -/
def unpackBytes (x : List Nat) (a : Nat) (count : Int) : Option (List Nat) :=
  match unpack "char" x a count 0 with
  | some (.bytes bs) => some bs
  | _ => none

/-! ### `BinaryTools.unescape_block`: the escape codec -/

/-- `BinaryTools.unescape_block`, with a count of the escape pairs replaced.
The scan looks for the marker `0xFE`; a marker with a following byte `f` is
replaced by the single byte `0xFE XOR (f - 1)` and scanning resumes just
after the replacement; a marker that is the final byte is kept as-is.  A
following byte of `0x00` makes the Python assign the negative value
`0xFE ^ -1` into the bytearray, a `ValueError` (modelled `none`). -/
def unescape_block_count : List Nat → Option (List Nat × Nat)
  | [] => some ([], 0)
  | [b] => some ([b], 0)
  | b :: f :: rest =>
    if b = 0xfe then
      if f = 0 then none
      else (unescape_block_count rest).map
        (fun p => ((0xfe ^^^ (f - 1)) :: p.1, p.2 + 1))
    else (unescape_block_count (f :: rest)).map (fun p => (b :: p.1, p.2))

/-- `BinaryTools.unescape_block` (result only). -/
def unescape_block (data : List Nat) : Option (List Nat) :=
  (unescape_block_count data).map Prod.fst

/-- Modelled from the spec: the inverse byte-stuffing transform of §4.4 /
§8, absent from the source (the repository only decodes).  Each occurrence
of the reserved byte `0xFE` is encoded as the pair `(0xFE, f)` with
`0xFE XOR (f - 1) = 0xFE`, i.e. `f = 0x01`; every other byte is kept. -/
def escape_block : List Nat → List Nat
  | [] => []
  | b :: rest =>
    if b = 0xfe then 0xfe :: 0x01 :: escape_block rest else b :: escape_block rest

/-! ### Text decoding (`decode_str` / `unpack_str`) -/

/-- Whether a byte is a UTF-8 continuation byte. -/
def utf8Cont (b : Nat) : Bool := 0x80 ≤ b && b ≤ 0xbf

/-- Python `bytes.decode('utf-8', errors='ignore')`: well-formed sequences
decode, ill-formed bytes are dropped (on a truncated or invalid sequence the
maximal valid prefix of the sequence is dropped, as CPython does).  The fuel
argument only serves termination: every recursive call is on a strictly
shorter list, so any fuel of at least `l.length` computes the decode. -/
def utf8DecodeIgnoreAux (fuel : Nat) (l : List Nat) : List Char :=
  match fuel with
  | 0 => []
  | fuel + 1 =>
  let utf8DecodeIgnore := utf8DecodeIgnoreAux fuel
  match l with
  | [] => []
  | b :: rest =>
    if b < 0x80 then Char.ofNat b :: utf8DecodeIgnore rest
    else if 0xc2 ≤ b && b ≤ 0xdf then
      match rest with
      | c1 :: rest1 =>
        if utf8Cont c1 then
          Char.ofNat ((b - 0xc0) * 64 + (c1 - 0x80)) :: utf8DecodeIgnore rest1
        else utf8DecodeIgnore rest
      | [] => []
    else if 0xe0 ≤ b && b ≤ 0xef then
      match rest with
      | c1 :: rest1 =>
        if (utf8Cont c1 && !(b = 0xe0 && c1 < 0xa0) && !(b = 0xed && 0xa0 ≤ c1)) then
          match rest1 with
          | c2 :: rest2 =>
            if utf8Cont c2 then
              Char.ofNat (((b - 0xe0) * 64 + (c1 - 0x80)) * 64 + (c2 - 0x80)) ::
                utf8DecodeIgnore rest2
            else utf8DecodeIgnore rest1
          | [] => []
        else utf8DecodeIgnore rest
      | [] => []
    else if 0xf0 ≤ b && b ≤ 0xf4 then
      match rest with
      | c1 :: rest1 =>
        if (utf8Cont c1 && !(b = 0xf0 && c1 < 0x90) && !(b = 0xf4 && 0x90 ≤ c1)) then
          match rest1 with
          | c2 :: rest2 =>
            if utf8Cont c2 then
              match rest2 with
              | c3 :: rest3 =>
                if utf8Cont c3 then
                  Char.ofNat ((((b - 0xf0) * 64 + (c1 - 0x80)) * 64 + (c2 - 0x80)) * 64
                      + (c3 - 0x80)) :: utf8DecodeIgnore rest3
                else utf8DecodeIgnore rest2
              | [] => []
            else utf8DecodeIgnore rest1
          | [] => []
        else utf8DecodeIgnore rest
      | [] => []
    else utf8DecodeIgnore rest

/-- The UTF-8 ignore-errors decode at full fuel. -/
def utf8DecodeIgnore (l : List Nat) : List Char := utf8DecodeIgnoreAux l.length l

/-- `BinaryTools.decode_str` with the default UTF-8 encoding. -/
def decode_str (seg : List Nat) : String := String.mk (utf8DecodeIgnore seg)

/-- Python `bytes.partition(b'\0')[0]`: the bytes before the first NUL. -/
def partitionAtNul (l : List Nat) : List Nat := l.takeWhile (fun b => b ≠ 0)

/-- `BinaryTools.unpack_str(segment, address, count, offset)`: unpack a byte
string, cut at the first NUL, decode UTF-8 ignoring errors.  Fails exactly
when the underlying `unpack('char', ...)` raises (negative count or read
past the 32-byte padding). -/
def unpack_str (seg : List Nat) (address : Nat) (count : Int) (offset : Nat) :
    Option String :=
  (unpackBytes seg (address + offset) count).map
    (fun bs => decode_str (partitionAtNul bs))

/-- `BinaryTools.is_printable` on text. -/
def is_printable (s : String) : Bool := s.data.all pyPrintableChar

/-- `display_bytes_hex`: space-separated `0x..` dump of a byte block. -/
def display_bytes_hex (x : List Nat) : String :=
  pyJoin " " (x.map (fun c => "0x" ++ hex2Lower c))

/-! ### VIN validation -/

/-- `vin_length` (17). -/
def vin_length : Nat := 17

/-- The literal `'538'` that every Zero VIN starts with (source name:
the `vin_guaranteed_` start-of-VIN constant). -/
def vinGuaranteedStart : String := "538"

/-- `is_vin`: printable, exactly 17 characters, and starting `'538'`. -/
def is_vin (vin : String) : Bool :=
  is_printable vin && vin.data.length = vin_length && pyStartswith vin vinGuaranteedStart

/-! ### Timestamp rendering (`gmtime` + `strftime(ZERO_TIME_FORMAT)`) -/

/-- `ZERO_TIME_FORMAT` is `'%m/%d/%Y %H:%M:%S'`; this is the fixed GMT offset
`MBB_TIMESTAMP_GMT_OFFSET` (−7 hours in seconds). -/
def MBB_TIMESTAMP_GMT_OFFSET : Int := -7 * 60 * 60

/-- Two-digit zero-padded field. -/
def pad2 (n : Nat) : String := padLeft (toString n) 2 '0'

/-- Proleptic-Gregorian (year, month, day) of a day count since the epoch
(the arithmetic `gmtime` performs, days-from-civil inverted). -/
def civilFromDays (days : Int) : Int × Nat × Nat :=
  let z := days + 719468
  let era := z.fdiv 146097
  let doe := (z - era * 146097).toNat
  let yoe := (doe - doe / 1460 + doe / 36524 - doe / 146096) / 365
  let doy := doe - (365 * yoe + yoe / 4 - yoe / 100)
  let mp := (5 * doy + 2) / 153
  let d := doy - (153 * mp + 2) / 5 + 1
  let m := if mp < 10 then mp + 3 else mp - 9
  (((yoe : Int) + era * 400) + (if m ≤ 2 then 1 else 0), m, d)

/-- `strftime(ZERO_TIME_FORMAT, gmtime(t))` for a (possibly negative) Unix
time `t`. -/
def strftimeZero (t : Int) : String :=
  let days := t.fdiv 86400
  let secs := (t - days * 86400).toNat
  let ymd := civilFromDays days
  pad2 ymd.2.1 ++ "/" ++ pad2 ymd.2.2 ++ "/" ++ toString ymd.1 ++ " " ++
    pad2 (secs / 3600) ++ ":" ++ pad2 (secs % 3600 / 60) ++ ":" ++ pad2 (secs % 60)

/-- `Gen2.timestamp_from_event` (with `use_local_time=False`, as
`parse_entry` calls it): bytes 1–4 of the unescaped block, little endian;
values `≤ 0xFFF` render as the bare decimal; larger values are seconds since
the epoch shifted by the timezone offset.  A `None` offset added to an
integer timestamp is a `TypeError` (modelled `none`). -/
def timestamp_from_event (unescaped_block : List Nat) (timezone_offset : Option Int) :
    Option String :=
  let timestamp := unpackNat "uint32" unescaped_block 0x01
  if timestamp > 0xfff then
    match timezone_offset with
    | none => none
    | some off => some (strftimeZero ((timestamp : Int) + off))
  else some (toString timestamp)

/-! ### Gen2 record decoders -/

/-- The event/conditions pair a Gen2 decoder returns (`conditions` is
missing from some of the Python dicts, hence `Option`). -/
structure Gen2Entry where
  event : String
  conditions : Option String
  deriving DecidableEq, Repr

/-- `convert_mv_to_v` (float division by 1000, exact as a rational). -/
def convert_mv_to_v (milli_volts : Int) : ℚ := (milli_volts : ℚ) / 1000

/-- `convert_ratio_to_percent` with its divide-by-zero guard. -/
def convert_ratio_to_percent (numerator denominator : ℚ) : ℚ :=
  if denominator ≠ 0 then numerator * 100 / denominator else 0

/-- `convert_bit_to_on_off`. -/
def convert_bit_to_on_off (bit : Bool) : String := if bit then "On" else "Off"

/-- Upper-case hexadecimal, zero padded (`'{:04X}'` and friends). -/
def fmtHexUpperZero (n : Nat) (w : Nat) : String :=
  padLeft (String.mk ((Nat.toDigits 16 n).map pyUpperChar)) w '0'

/-- Python `trunc(x / 1000000.0)` on an integer `x` (exact: the quotient of
an integer below `2^53` by the exactly-representable `1e6` truncates to the
same value as the rational). -/
def truncDivMillion (x : Int) : Int := Int.tdiv x 1000000

/-- `Gen2.bms_discharge_level`. -/
def bms_discharge_level (x : List Nat) : Option Gen2Entry :=
  let bike : Nat → Option String := fun v =>
    if v = 0x01 then some "Bike On"
    else if v = 0x02 then some "Charge"
    else if v = 0x03 then some "Idle" else none
  some
    { event := "Discharge level"
      conditions := some
        (fmtFixed (truncDivMillion (unpackNat "uint32" x 0x06) : ℚ) 0 3 true
          ++ " AH, SOC:" ++ fmtIntWidth (unpackNat "uint8" x 0x0a) 3
          ++ "%, I:" ++ fmtFixed (truncDivMillion (unpackInt "int32" x 0x10) : ℚ) 0 3 false
          ++ "A, L:" ++ toString (unpackNat "uint16" x 0x0)
          ++ ", l:" ++ toString (unpackNat "uint16" x 0x14)
          ++ ", H:" ++ toString (unpackNat "uint16" x 0x02)
          ++ ", B:" ++ fmtIntZero ((unpackNat "uint16" x 0x02 : Int) - unpackNat "uint16" x 0x0) 3
          ++ ", PT:" ++ fmtIntZero (unpackNat "uint8" x 0x04) 3
          ++ "C, BT:" ++ fmtIntZero (unpackNat "uint8" x 0x05) 3
          ++ "C, PV:" ++ fmtIntWidth (unpackNat "uint32" x 0x0b) 6
          ++ ", M:" ++ (match bike (unpackNat "uint8" x 0x0f) with
                        | some s => s
                        | none => "None")) }

/-- The shared field block of `Gen2.bms_charge_event_fields`. -/
structure BmsChargeFields where
  AH : Int
  B : Int
  L : Nat
  H : Nat
  PT : Nat
  BT : Nat
  SOC : Nat
  PV : Nat

/-- `Gen2.bms_charge_event_fields`. -/
def bms_charge_event_fields (x : List Nat) : BmsChargeFields :=
  { AH := truncDivMillion (unpackNat "uint32" x 0x06)
    B := (unpackNat "uint16" x 0x02 : Int) - unpackNat "uint16" x 0x0
    L := unpackNat "uint16" x 0x00
    H := unpackNat "uint16" x 0x02
    PT := unpackNat "uint8" x 0x04
    BT := unpackNat "uint8" x 0x05
    SOC := unpackNat "uint8" x 0x0a
    PV := unpackNat "uint32" x 0x0b }

/-- `Gen2.bms_charge_full`. -/
def bms_charge_full (x : List Nat) : Option Gen2Entry :=
  let f := bms_charge_event_fields x
  some
    { event := "Charged To Full"
      conditions := some
        (fmtFixed (f.AH : ℚ) 0 3 true ++ " AH, SOC: " ++ toString f.SOC
          ++ "%,         L:" ++ toString f.L ++ ",         H:" ++ toString f.H
          ++ ", B:" ++ fmtIntZero f.B 3 ++ ", PT:" ++ fmtIntZero f.PT 3
          ++ "C, BT:" ++ fmtIntZero f.BT 3 ++ "C, PV:" ++ fmtIntWidth f.PV 6) }

/-- `Gen2.bms_discharge_low`. -/
def bms_discharge_low (x : List Nat) : Option Gen2Entry :=
  let f := bms_charge_event_fields x
  some
    { event := "Discharged To Low"
      conditions := some
        (fmtFixed (f.AH : ℚ) 0 3 true ++ " AH, SOC:" ++ fmtIntWidth f.SOC 3
          ++ "%,         L:" ++ toString f.L ++ ",         H:" ++ toString f.H
          ++ ", B:" ++ fmtIntZero f.B 3 ++ ", PT:" ++ fmtIntZero f.PT 3
          ++ "C, BT:" ++ fmtIntZero f.BT 3 ++ "C, PV:" ++ fmtIntWidth f.PV 6) }

/-- `Gen2.bms_system_state`. -/
def bms_system_state (x : List Nat) : Option Gen2Entry :=
  some { event := "System Turned " ++ convert_bit_to_on_off (unpackBool x 0x0)
         conditions := none }

/-- `Gen2.bms_soc_adj_voltage`. -/
def bms_soc_adj_voltage (x : List Nat) : Option Gen2Entry :=
  some
    { event := "SOC adjusted for voltage"
      conditions := some
        ("old:   " ++ toString (unpackNat "uint32" x 0x00)
          ++ "uAH (soc:" ++ toString (unpackNat "uint8" x 0x04)
          ++ "%), new:   " ++ toString (unpackNat "uint32" x 0x05)
          ++ "uAH (soc:" ++ toString (unpackNat "uint8" x 0x09)
          ++ "%), low cell: " ++ toString (unpackNat "uint16" x 0x0a) ++ " mV") }

/-- `Gen2.bms_curr_sens_zero`. -/
def bms_curr_sens_zero (x : List Nat) : Option Gen2Entry :=
  some
    { event := "Current Sensor Zeroed"
      conditions := some
        ("old: " ++ toString (unpackNat "uint16" x 0x00)
          ++ "mV, new: " ++ toString (unpackNat "uint16" x 0x02)
          ++ "mV, corrfact: " ++ toString (unpackNat "uint8" x 0x04)) }

/-- `Gen2.bms_state`. -/
def bms_state (x : List Nat) : Option Gen2Entry :=
  some { event := (if unpackBool x 0x0 then "Entering" else "Exiting") ++ " Hibernate"
         conditions := none }

/-- `Gen2.bms_isolation_fault`. -/
def bms_isolation_fault (x : List Nat) : Option Gen2Entry :=
  some
    { event := "Chassis Isolation Fault"
      conditions := some
        (toString (unpackNat "uint32" x 0x00) ++ " ohms to cell "
          ++ toString (unpackNat "uint8" x 0x04)) }

/-- `Gen2.bms_reflash`. -/
def bms_reflash (x : List Nat) : Option Gen2Entry :=
  some
    { event := "BMS Reflash"
      conditions := some
        ("Revision " ++ toString (unpackNat "uint8" x 0x00)
          ++ ", Built " ++ (unpack_str x 0x01 20 0).getD "") }

/-- `Gen2.bms_change_can_id`. -/
def bms_change_can_id (x : List Nat) : Option Gen2Entry :=
  some
    { event := "Changed CAN Node ID"
      conditions := some
        ("old: " ++ fmtIntZero (unpackNat "uint8" x 0x00) 2
          ++ ", new: " ++ fmtIntZero (unpackNat "uint8" x 0x01) 2) }

/-- `Gen2.bms_contactor_state`. -/
def bms_contactor_state (x : List Nat) : Option Gen2Entry :=
  let pack_voltage := unpackNat "uint32" x 0x01
  let switched_voltage := unpackNat "uint32" x 0x05
  some
    { event := "Contactor was " ++ (if unpackBool x 0x0 then "Closed" else "Opened")
      conditions := some
        ("Pack V: " ++ toString pack_voltage
          ++ "mV, Switched V: " ++ toString switched_voltage
          ++ "mV, Prechg Pct: "
          ++ fmtFixed (convert_ratio_to_percent (switched_voltage : ℚ) (pack_voltage : ℚ)) 0 2 false
          ++ "%, Dischg Cur: " ++ toString (unpackInt "int32" x 0x09) ++ "mA") }

/-- `Gen2.bms_discharge_cut`. -/
def bms_discharge_cut (x : List Nat) : Option Gen2Entry :=
  some
    { event := "Discharge cutback"
      conditions := some
        (fmtFixed (convert_ratio_to_percent (unpackNat "uint8" x 0x00 : ℚ) 255) 0 2 false ++ "%") }

/-- `Gen2.bms_contactor_drive`. -/
def bms_contactor_drive (x : List Nat) : Option Gen2Entry :=
  some
    { event := "Contactor drive turned on"
      conditions := some
        ("Pack V: " ++ toString (unpackNat "uint32" x 0x01)
          ++ "mV, Switched V: " ++ toString (unpackNat "uint32" x 0x05)
          ++ "mV, Duty Cycle: " ++ toString (unpackNat "uint8" x 0x09) ++ "%") }

/-- `Gen2.debug_message`: the only decoder whose `unpack_str` count
(`len(x) - 1`) can be negative — on an empty payload the `struct` format is
invalid and the decoder raises. -/
def debug_message (x : List Nat) : Option Gen2Entry :=
  (unpack_str x 0x0 ((x.length : Int) - 1) 0).map
    (fun s => { event := s, conditions := none })

/-- `Gen2.board_status`. -/
def board_status (x : List Nat) : Option Gen2Entry :=
  some
    { event := "BMS Reset"
      conditions := some
        (if unpackNat "uint8" x 0x00 = 0x04 then "Software" else "Unknown") }

/-- `Gen2.key_state` (note the trailing blank after `On`). -/
def key_state (x : List Nat) : Option Gen2Entry :=
  let key_on := unpackBool x 0x0
  some { event := "Key " ++ convert_bit_to_on_off key_on ++ (if key_on then " " else "")
         conditions := none }

/-- `Gen2.battery_can_link_up`. -/
def battery_can_link_up (x : List Nat) : Option Gen2Entry :=
  some { event := "Module " ++ fmtIntZero (unpackNat "uint8" x 0x0) 2 ++ " CAN Link Up"
         conditions := none }

/-- `Gen2.battery_can_link_down`. -/
def battery_can_link_down (x : List Nat) : Option Gen2Entry :=
  some { event := "Module " ++ fmtIntZero (unpackNat "uint8" x 0x0) 2 ++ " CAN Link Down"
         conditions := none }

/-- `Gen2.sevcon_can_link_up`. -/
def sevcon_can_link_up (_x : List Nat) : Option Gen2Entry :=
  some { event := "Sevcon CAN Link Up", conditions := none }

/-- `Gen2.sevcon_can_link_down`. -/
def sevcon_can_link_down (_x : List Nat) : Option Gen2Entry :=
  some { event := "Sevcon CAN Link Down", conditions := none }

/-- `Gen2.run_status`. -/
def run_status (x : List Nat) : Option Gen2Entry :=
  let mod_translate : Nat → Option String := fun v =>
    if v = 0x00 then some "00" else if v = 0x01 then some "10"
    else if v = 0x02 then some "01" else if v = 0x03 then some "11" else none
  some
    { event := "Riding"
      conditions := some
        ("PackTemp: h " ++ toString (unpackNat "uint8" x 0x0)
          ++ "C, l " ++ toString (unpackNat "uint8" x 0x1)
          ++ "C, PackSOC:" ++ fmtIntWidth (unpackNat "uint16" x 0x2) 3
          ++ "%, Vpack:" ++ fmtFixed (convert_mv_to_v (unpackNat "uint32" x 0x4)) 3 7 false
          ++ "V, MotAmps:" ++ fmtIntWidth (unpackInt "int16" x 0x13) 4
          ++ ", BattAmps:" ++ fmtIntWidth (unpackInt "int16" x 0x10) 4
          ++ ", Mods: " ++ ((mod_translate (unpackNat "uint8" x 0x12)).getD "Unknown")
          ++ ", MotTemp:" ++ fmtIntWidth (unpackInt "int16" x 0x8) 4
          ++ "C, CtrlTemp:" ++ fmtIntWidth (unpackInt "int16" x 0xa) 4
          ++ "C, AmbTemp:" ++ fmtIntWidth (unpackInt "int16" x 0x15) 4
          ++ "C, MotRPM:" ++ fmtIntWidth (unpackNat "uint16" x 0xc) 4
          ++ ", Odo:" ++ fmtIntWidth (unpackNat "uint32" x 0x17) 5 ++ "km") }

/-- `Gen2.charging_status`. -/
def charging_status (x : List Nat) : Option Gen2Entry :=
  some
    { event := "Charging"
      conditions := some
        ("PackTemp: h " ++ toString (unpackNat "uint8" x 0x00)
          ++ "C, l " ++ toString (unpackNat "uint8" x 0x01)
          ++ "C, AmbTemp: " ++ toString (unpackInt "int8" x 0x0d)
          ++ "C, PackSOC:" ++ fmtIntWidth (unpackNat "uint16" x 0x02) 3
          ++ "%, Vpack:" ++ fmtFixed (convert_mv_to_v (unpackNat "uint32" x 0x4)) 3 7 false
          ++ "V, BattAmps: " ++ fmtIntWidth (unpackInt "int8" x 0x08) 3
          ++ ", Mods: " ++ fmtBinZero (unpackNat "uint8" x 0x0c) 2
          ++ ", MbbChgEn: Yes, BmsChgEn: No") }

/-- `Gen2.sevcon_status`. -/
def sevcon_status (x : List Nat) : Option Gen2Entry :=
  let sevcon_code := unpackNat "uint16" x 0x02
  let cause :=
    if sevcon_code = 0x4681 then "Preop"
    else if sevcon_code = 0x4884 then "Sequence Fault"
    else if sevcon_code = 0x4981 then "Throttle Fault" else "Unknown"
  some
    { event := "SEVCON CAN EMCY Frame"
      conditions := some
        ("Error Code: 0x" ++ fmtHexUpperZero (unpackNat "uint16" x 0x00) 4
          ++ ", Error Reg: 0x" ++ fmtHexUpperZero (unpackNat "uint8" x 0x04) 2
          ++ ", Sevcon Error Code: 0x" ++ fmtHexUpperZero sevcon_code 4
          ++ ", Data: " ++ pyJoin " " ((x.drop 5).map hex2Upper)
          ++ ", " ++ cause) }

/-- `Gen2.charger_status`: `states.get` has no default, so an unmapped state
byte feeds `None` into a `{:13s}` format, a `TypeError` — this decoder fails
exactly on state bytes other than 0 and 1. -/
def charger_status (x : List Nat) : Option Gen2Entry :=
  let charger_state := unpackNat "uint8" x 0x1
  let charger_id := unpackNat "uint8" x 0x0
  let name :=
    if charger_id = 0x00 then "Calex 720W"
    else if charger_id = 0x01 then "Calex 1200W"
    else if charger_id = 0x02 then "External Chg 0"
    else if charger_id = 0x03 then "External Chg 1" else "Unknown"
  let state : Option String :=
    if charger_state = 0x00 then some "Disconnected"
    else if charger_state = 0x01 then some "Connected" else none
  state.map (fun st =>
    { event := name ++ " Charger " ++ toString charger_id ++ " " ++ padRight st 13 ' '
      conditions := none })

/-- `Gen2.battery_status` (the `printable_serial_no` filter keeps the
characters *not* in `string.printable`, as the source does). -/
def battery_status (x : List Nat) : Option Gen2Entry :=
  let event := unpackNat "uint8" x 0x0
  let event_name :=
    if event = 0x00 then "Opening Contactor"
    else if event = 0x01 then "Closing Contactor"
    else if event = 0x02 then "Registered"
    else "Unknown (0x" ++ hex2Lower event ++ ")"
  let mod_volt := convert_mv_to_v (unpackNat "uint32" x 0x2)
  let sys_max := convert_mv_to_v (unpackNat "uint32" x 0x6)
  let sys_min := convert_mv_to_v (unpackNat "uint32" x 0xa)
  let capacitor_volt := convert_mv_to_v (unpackNat "uint32" x 0x0e)
  let battery_current := unpackInt "int16" x 0x12
  let serial_no := (unpack_str x 0x14 ((x.drop 0x14).length : Int) 0).getD ""
  let printable_serial_no0 := String.mk (serial_no.data.filter (fun c => !pyPrintableChar c))
  let printable_serial_no :=
    if printable_serial_no0 = "" then serial_no else printable_serial_no0
  let conditions_msg :=
    if event_name = "Opening Contactor" then
      "vmod: " ++ fmtFixed mod_volt 3 7 false ++ "V, batt curr: "
        ++ fmtFixed (battery_current : ℚ) 0 3 false ++ "A"
    else if event_name = "Closing Contactor" then
      "vmod: " ++ fmtFixed mod_volt 3 7 false
        ++ "V, maxsys: " ++ fmtFixed sys_max 3 7 false
        ++ "V, minsys: " ++ fmtFixed sys_min 3 7 false
        ++ "V, diff: " ++ fmtFixed (sys_max - sys_min) 3 0 true
        ++ "V, vcap: " ++ fmtFixed capacitor_volt 3 6 false
        ++ "V, prechg: " ++ fmtFixed (convert_ratio_to_percent capacitor_volt mod_volt) 0 2 false
        ++ "%"
    else if event_name = "Registered" then
      "serial: " ++ printable_serial_no ++ ",  vmod: " ++ fmtFixed mod_volt 3 3 false ++ "V"
    else ""
  some
    { event := "Module " ++ fmtIntZero (unpackNat "uint8" x 0x1) 2 ++ " " ++ event_name
      conditions := some conditions_msg }

/-- `Gen2.power_state`. -/
def power_state (x : List Nat) : Option Gen2Entry :=
  let power_on_cause := unpackNat "uint8" x 0x1
  let sources :=
    if power_on_cause = 0x01 then "Key Switch"
    else if power_on_cause = 0x02 then "Ext Charger 0"
    else if power_on_cause = 0x03 then "Ext Charger 1"
    else if power_on_cause = 0x04 then "Onboard Charger" else "Unknown"
  some { event := "Power " ++ convert_bit_to_on_off (unpackBool x 0x0)
         conditions := some sources }

/-- `Gen2.sevcon_power_state`. -/
def sevcon_power_state (x : List Nat) : Option Gen2Entry :=
  some { event := "Sevcon Turned " ++ convert_bit_to_on_off (unpackBool x 0x0)
         conditions := none }

/-- `Gen2.show_bluetooth_state`. -/
def show_bluetooth_state (_x : List Nat) : Option Gen2Entry :=
  some { event := "BT RX buffer reset", conditions := none }

/-- `Gen2.battery_discharge_current_limited`. -/
def battery_discharge_current_limited (x : List Nat) : Option Gen2Entry :=
  let limit := unpackNat "uint16" x 0x00
  let max_amp := unpackNat "uint16" x 0x05
  some
    { event := "Batt Dischg Cur Limited"
      conditions := some
        (toString limit ++ " A ("
          ++ fmtFixed (convert_ratio_to_percent (limit : ℚ) (max_amp : ℚ)) 2 0 false
          ++ "%), MinCell: " ++ toString (unpackNat "uint16" x 0x02)
          ++ "mV, MaxPackTemp: " ++ toString (unpackNat "uint8" x 0x04) ++ "C") }

/-- `Gen2.low_chassis_isolation`. -/
def low_chassis_isolation (x : List Nat) : Option Gen2Entry :=
  some
    { event := "Low Chassis Isolation"
      conditions := some
        (toString (unpackNat "uint32" x 0x00) ++ " KOhms to cell "
          ++ toString (unpackNat "uint8" x 0x04)) }

/-- `Gen2.precharge_decay_too_steep`. -/
def precharge_decay_too_steep (_x : List Nat) : Option Gen2Entry :=
  some { event := "Precharge Decay Too Steep. Restarting Sevcon.", conditions := none }

/-- `Gen2.disarmed_status`. -/
def disarmed_status (x : List Nat) : Option Gen2Entry :=
  some
    { event := "Disarmed"
      conditions := some
        ("PackTemp: h " ++ toString (unpackNat "uint8" x 0x0)
          ++ "C, l " ++ toString (unpackNat "uint8" x 0x1)
          ++ "C, PackSOC:" ++ fmtIntWidth (unpackNat "uint16" x 0x2) 3
          ++ "%, Vpack:" ++ fmtFixed (convert_mv_to_v (unpackNat "uint32" x 0x4)) 3 3 true
          ++ "V, MotAmps:" ++ fmtIntWidth (unpackInt "int8" x 0x13) 4
          ++ ", BattAmps:" ++ fmtIntWidth (unpackNat "uint8" x 0x10) 4
          ++ ", Mods: " ++ fmtBinZero (unpackNat "uint8" x 0x12) 2
          ++ ", MotTemp:" ++ fmtIntWidth (unpackInt "int16" x 0x8) 4
          ++ "C, CtrlTemp:" ++ fmtIntWidth (unpackInt "int16" x 0xa) 4
          ++ "C, AmbTemp:" ++ fmtIntWidth (unpackInt "int16" x 0x15) 4
          ++ "C, MotRPM:" ++ fmtIntWidth (unpackNat "uint16" x 0xc) 4
          ++ ", Odo:" ++ fmtIntWidth (unpackNat "uint32" x 0x17) 5 ++ "km") }

/-- `Gen2.battery_contactor_closed`. -/
def battery_contactor_closed (x : List Nat) : Option Gen2Entry :=
  some { event := "Battery module " ++ fmtIntZero (unpackNat "uint8" x 0x0) 2
                    ++ " contactor closed"
         conditions := none }

/-! ### `Gen2.parse_entry` and the decoder registry -/

/-- `Gen2.type_from_block`: byte 0 of the unescaped block (zero when the
block is empty, through the 32-byte read padding). -/
def type_from_block (unescaped_block : List Nat) : Nat :=
  unpackNat "uint8" unescaped_block 0x00

/-- `Gen2.unhandled_entry_format`: hex dump fallback; the conditions carry
`chr(message_type)` followed by the `'???'` sentinel. -/
def unhandled_entry_format (message_type : Nat) (x : List Nat) : Gen2Entry :=
  { event := display_bytes_hex [message_type] ++ " " ++ display_bytes_hex x
    conditions := some (String.mk [Char.ofNat message_type] ++ "???") }

/-- The `parsers` registry of `Gen2.parse_entry`: one-byte message-type code
→ decoder.  Exactly the codes the source registers. -/
def parsers (message_type : Nat) : Option (List Nat → Option Gen2Entry) :=
  if message_type = 0x01 then some board_status
  else if message_type = 0x03 then some bms_discharge_level
  else if message_type = 0x04 then some bms_charge_full
  else if message_type = 0x06 then some bms_discharge_low
  else if message_type = 0x08 then some bms_system_state
  else if message_type = 0x09 then some key_state
  else if message_type = 0x0b then some bms_soc_adj_voltage
  else if message_type = 0x0d then some bms_curr_sens_zero
  else if message_type = 0x10 then some bms_state
  else if message_type = 0x11 then some bms_isolation_fault
  else if message_type = 0x12 then some bms_reflash
  else if message_type = 0x13 then some bms_change_can_id
  else if message_type = 0x15 then some bms_contactor_state
  else if message_type = 0x16 then some bms_discharge_cut
  else if message_type = 0x18 then some bms_contactor_drive
  else if message_type = 0x28 then some battery_can_link_up
  else if message_type = 0x29 then some battery_can_link_down
  else if message_type = 0x2a then some sevcon_can_link_up
  else if message_type = 0x2b then some sevcon_can_link_down
  else if message_type = 0x2c then some run_status
  else if message_type = 0x2d then some charging_status
  else if message_type = 0x2f then some sevcon_status
  else if message_type = 0x30 then some charger_status
  else if message_type = 0x33 then some battery_status
  else if message_type = 0x34 then some power_state
  else if message_type = 0x36 then some sevcon_power_state
  else if message_type = 0x38 then some show_bluetooth_state
  else if message_type = 0x39 then some battery_discharge_current_limited
  else if message_type = 0x3a then some low_chassis_isolation
  else if message_type = 0x3b then some precharge_decay_too_steep
  else if message_type = 0x3c then some disarmed_status
  else if message_type = 0x3d then some battery_contactor_closed
  else if message_type = 0xfd then some debug_message
  else none

/-- A decoded entry as `parse_entry` returns it (before the emitter adds the
line number). -/
structure Gen2Decoded where
  event : String
  conditions : Option String
  time : String
  deriving DecidableEq, Repr

/-- The resynchronised read position of `Gen2.parse_entry`: the while loop
advances byte-wise until the delimiter `0xB2`; when it runs off the end of
the buffer it stops at the first out-of-range index it probed (the original
address was in range: `len`; otherwise: `address + 1`). -/
def entry_address (log_data : List Nat) (address : Nat) : Nat :=
  match (log_data.drop address).findIdx? (fun b => b = 0xb2) with
  | some k => address + k
  | none => if address < log_data.length then log_data.length else address + 1

/-- The record length byte `log_data[address + 1]` (0 on `IndexError`). -/
def entry_length_byte (log_data : List Nat) (address : Nat) : Nat :=
  log_data.getD (entry_address log_data address + 1) 0

/-- The raw block `log_data[address + 2 : address + length]` that
`parse_entry` feeds to the escape codec. -/
def entry_block (log_data : List Nat) (address : Nat) : List Nat :=
  pySlice log_data (entry_address log_data address + 2)
    (entry_address log_data address + entry_length_byte log_data address)

/-- `Gen2.parse_entry`.  The decoder dispatch sits inside `try/except`: a
missing registry entry uses the hex-dump fallback, a failing decoder uses
the same fallback with the `'Exception caught: '` marker and bumps the
unhandled counter.  `unescape_block` and `timestamp_from_event` run
*outside* that handler, so their failures escape as `.error`. -/
def parse_entry (log_data : List Nat) (address : Nat) (unhandled : Nat)
    (timezone_offset : Option Int) : Except String (Nat × Gen2Decoded × Nat) :=
  let length := entry_length_byte log_data address
  match unescape_block (entry_block log_data address) with
  | none => .error "ValueError: byte must be in range(0, 256)"
  | some unescaped_block =>
    let message_type := type_from_block unescaped_block
    let message := unescaped_block.drop 0x05
    let deco :=
      match parsers message_type with
      | some dec =>
        match dec message with
        | some entry => (entry, unhandled)
        | none =>
          let entry := unhandled_entry_format message_type message
          ({ entry with event := "Exception caught: " ++ entry.event }, unhandled + 1)
      | none => (unhandled_entry_format message_type message, unhandled)
    match timestamp_from_event unescaped_block timezone_offset with
    | none => .error "TypeError: unsupported operand type for +: int and NoneType"
    | some t =>
      .ok (length, { event := deco.1.event, conditions := deco.1.conditions, time := t },
           deco.2)

/-! ### Ring-buffer segmentation (`LogData.get_entries_and_counts`, Rev0/Rev1) -/

/-- Log revisions, as the source's module constants. -/
def REV0 : Nat := 0

/-- Rev1. -/
def REV1 : Nat := 1

/-- Rev2. -/
def REV2 : Nat := 2

/-- The ring parameters of the Rev0/Rev1 branch of
`LogData.get_entries_and_counts`: `(entries_end, entries_start,
entries_data_begin, claimed_entries_count)`.  With the `0xA2A2A2A2` sentinel
present they are the three little-endian `uint32` fields after it and the
data region starts 16 bytes past the sentinel; without it the whole tail
from the first `0xB2` delimiter counts, and when that delimiter is also
absent `entries_start` is `None` and the later `entries_start >= entries_end`
comparison is a `TypeError` (modelled `.error`). -/
def gen2RingParams (raw_log : List Nat) : Except String (Nat × Nat × Nat × Nat) :=
  match index_of_sequence raw_log [0xa2, 0xa2, 0xa2, 0xa2] 0 with
  | some entries_header_idx =>
    .ok (unpackNat "uint32" raw_log (0x4 + entries_header_idx),
         unpackNat "uint32" raw_log (0x8 + entries_header_idx),
         entries_header_idx + 0x10,
         unpackNat "uint32" raw_log (0xc + entries_header_idx))
  | none =>
    match index_of_sequence raw_log [0xb2] 0 with
    | some entries_start => .ok (raw_log.length, entries_start, entries_start, 0)
    | none => .error "TypeError: not supported between instances of NoneType and int"

/-- The wraparound-resolved logical event-log byte sequence of the Rev0/Rev1
branch: `raw[start:] + raw[data_begin:end]` when `start ≥ end`, else
`raw[start:end]`. -/
def gen2EventLog (raw_log : List Nat) (entries_end entries_start entries_data_begin : Nat) :
    List Nat :=
  if entries_start ≥ entries_end then
    pyDrop raw_log entries_start ++ pySlice raw_log entries_data_begin entries_end
  else pySlice raw_log entries_start entries_end

/-- The Rev0/Rev1 branch of `LogData.get_entries_and_counts`: the logical
sequence plus the authoritative count of `0xB2` delimiter bytes in it. -/
def get_entries_and_counts_gen2 (raw_log : List Nat) : Except String (Nat × List Nat) :=
  match gen2RingParams raw_log with
  | .error e => .error e
  | .ok (entries_end, entries_start, entries_data_begin, _claimed) =>
    let event_log := gen2EventLog raw_log entries_end entries_start entries_data_begin
    .ok (countByte event_log 0xb2, event_log)

/-- The entry-producing loop of `emit_zero_compatible_decoding` for Rev0/Rev1:
`entries_count` iterations of `Gen2.parse_entry`, the read position advanced
by each record's length byte, the exception-fallback counter threaded
through.  Output-line formatting (out of the engine's scope) is omitted; one
list element is appended per loop iteration exactly as one line is written. -/
def gen2EmitLoop (event_log : List Nat) (read_pos : Nat) (n : Nat) (unhandled : Nat)
    (timezone_offset : Option Int) : Except String (List Gen2Decoded × Nat) :=
  match n with
  | 0 => .ok ([], unhandled)
  | n + 1 =>
    match parse_entry event_log read_pos unhandled timezone_offset with
    | .error e => .error e
    | .ok (length, entry, unhandled2) =>
      match gen2EmitLoop event_log (read_pos + length) n unhandled2 timezone_offset with
      | .error e => .error e
      | .ok (rest, unhandled3) => .ok (entry :: rest, unhandled3)

/-! ### Fencepost segmentation (`LogData.get_gen3_entries`, Rev2) -/

/-- The value step of `LogData.next_event_fencepost`: `V + 1`, skipping
`0xFE` (to `0xFF`) and `0x00` (to `0x01`), wrapping past `0xFF` to `0x01`. -/
def next_fencepost_value (previous_value : Nat) : Nat :=
  let next_value := previous_value + 1
  let next_value :=
    if next_value = 0xfe then 0xff
    else if next_value = 0x00 then 0x01
    else next_value
  if next_value > 0xff then 0x01 else next_value

/-- `LogData.event_fencepost`: the 3-byte marker `(B0, value, B2)`. -/
def event_fencepost (b0 b2 value : Nat) : List Nat := [b0, value, b2]

/-- `LogData.next_event_fencepost` on a fencepost byte pattern (the loop
always passes the 3-byte pattern, whose middle byte is the counter). -/
def next_event_fencepost (b0 b2 : Nat) (previous_event_fencepost : List Nat) : List Nat :=
  event_fencepost b0 b2 (next_fencepost_value (previous_event_fencepost.getD 1 0))

/-- The inner `while` of `get_gen3_entries` that hunts for the record-end
fencepost: while the candidate end is missing or more than 256 bytes out,
step the fencepost counter and retry, stopping if the counter cycles back to
the current fencepost.  `fuel` only serves termination; 257 exceeds the
fencepost counter's cycle length, after which the cycle test must have hit. -/
def gen3EndScan (raw_log : List Nat) (b0 b2 : Nat) (current_fencepost : List Nat)
    (event_start : Nat) (next_fencepost : List Nat) (event_end : Option Nat)
    (fuel : Nat) : List Nat × Option Nat :=
  if (match event_end with
      | none => false
      | some e => decide (e - event_start ≤ 256)) then
    (next_fencepost, event_end)
  else
    match fuel with
    | 0 => (next_fencepost, event_end)
    | fuel + 1 =>
      let stepped := next_event_fencepost b0 b2 next_fencepost
      let event_end2 := index_of_sequence raw_log stepped (event_start + 1)
      if stepped = current_fencepost then (stepped, event_end2)
      else gen3EndScan raw_log b0 b2 current_fencepost event_start stepped event_end2 fuel

/-- One iteration plus the tail of the outer `while` of `get_gen3_entries`.
`fuel` only serves termination: every two iterations strictly advance
`event_start` below `entries_end`, so `2 * (len + 2)` fuel is never
exhausted. -/
def gen3Loop (raw_log : List Nat) (b0 b2 : Nat) (entries_end : Nat)
    (event_start : Nat) (current_fencepost : List Nat) (entries_count : Nat)
    (acc : List (List Nat)) (fuel : Nat) : Nat × List (List Nat) :=
  match fuel with
  | 0 => (entries_count, acc.reverse)
  | fuel + 1 =>
    if event_start < entries_end then
      let event_start2 :=
        match index_of_sequence raw_log current_fencepost (event_start + 1) with
        | some next_event_start => next_event_start
        | none => event_start
      let fp0 := next_event_fencepost b0 b2 current_fencepost
      let e0 := index_of_sequence raw_log fp0 (event_start2 + 1)
      let scanned := gen3EndScan raw_log b0 b2 current_fencepost event_start2 fp0 e0 257
      let next_fencepost := scanned.1
      let event_end := scanned.2
      let event_payload :=
        match event_end with
        | some e => pySliceInt raw_log ((event_start2 : Int) - 4) ((e : Int) - 4)
        | none => pyDropInt raw_log ((event_start2 : Int) - 4)
      let acc2 := event_payload :: acc
      let entries_count2 := entries_count + 1
      match event_end with
      | none => (entries_count2, acc2.reverse)
      | some e =>
        if e ≥ entries_end then (entries_count2, acc2.reverse)
        else gen3Loop raw_log b0 b2 entries_end event_start2 next_fencepost
               entries_count2 acc2 fuel
    else (entries_count, acc.reverse)

/-- `LogData.get_gen3_entries`.  The fencepost reference bytes come from
fixed offsets `0x0A` and `0x0C` (an `IndexError` on shorter buffers); the
first fencepost is found with the regex `bytes([B0, ord('.'), B2])`, whose
`.` matches any byte except newline (`0x0A`); when no fencepost exists the
source raises a bare `ValueError`, terminating the decode. -/
def get_gen3_entries (raw_log : List Nat) : Except String (Nat × List (List Nat)) :=
  if raw_log.length ≤ 0x0c then .error "IndexError: bytearray index out of range"
  else
    let b0 := raw_log.getD 0x0a 0
    let b2 := raw_log.getD 0x0c 0
    let firstMatch := (List.range raw_log.length).find? (fun i =>
      decide (raw_log.getD i 0 = b0) && decide (i + 2 < raw_log.length) &&
      decide (raw_log.getD (i + 1) 0 ≠ 0x0a) && decide (raw_log.getD (i + 2) 0 = b2))
    match firstMatch with
    | none => .error "ValueError"
    | some event_start =>
      let first_fencepost_value := raw_log.getD (event_start + 1) 0
      let current_fencepost := event_fencepost b0 b2 first_fencepost_value
      .ok (gen3Loop raw_log b0 b2 raw_log.length event_start current_fencepost 0 []
             (2 * (raw_log.length + 2)))

/-- `LogData.get_entries_and_counts`, dispatching on the log revision. -/
inductive EntriesResult where
  | gen2 (event_log : List Nat)
  | gen3 (payloads : List (List Nat))
  deriving DecidableEq, Repr

/-- `LogData.get_entries_and_counts` over both revisions. -/
def get_entries_and_counts (log_version : Nat) (raw_log : List Nat) :
    Except String (Nat × EntriesResult) :=
  if log_version < REV2 then
    match get_entries_and_counts_gen2 raw_log with
    | .error e => .error e
    | .ok (n, event_log) => .ok (n, .gen2 event_log)
  else
    match get_gen3_entries raw_log with
    | .error e => .error e
    | .ok (n, payloads) => .ok (n, .gen3 payloads)

/-! ### Log type and version classification (the control flow of
`LogFile.get_log_type` / `LogData.get_version_and_header` that selects the
generation; the `HeaderInfo` string fields those functions also collect are
consumed only by the out-of-scope emitters and are not embedded) -/

/-- `LogFile.is_printable(address, count)`: decode `count` raw bytes as
UTF-8 (ignoring errors, no NUL cut) and require every character printable
and none lost in decoding. -/
def logfile_is_printable (data : List Nat) (address count : Nat) : Bool :=
  match unpackBytes data address (count : Int) with
  | some bs =>
    let s := decode_str bs
    is_printable s && s.data.length = count
  | none => false

/-- `LogFile.unpack_str` (UTF-8). -/
def logfile_unpack_str (data : List Nat) (address : Nat) (count : Int) : Option String :=
  unpack_str data address count 0

/-- Latin-1 decoding (`encoding='latin_1'`): every byte maps to the same
code point. -/
def decode_latin1 (seg : List Nat) : String := String.mk (seg.map Char.ofNat)

/-- `LogFile.unpack_str` with `encoding='latin_1'` (the Rev2 VIN probe). -/
def logfile_unpack_str_latin1 (data : List Nat) (address : Nat) (count : Int) :
    Option String :=
  (unpackBytes data address count).map (fun bs => decode_latin1 (partitionAtNul bs))

/-- `LogFile.get_log_type`: a printable 3-byte tag at `0x000`, else at
`0x00D`, else a case-insensitive filename hint, else unknown; anything that
is not the MBB or BMS literal collapses to `'Unknown Type'`. -/
def get_log_type (data : List Nat) (file_path : String) : String :=
  let log_type : Option String :=
    if logfile_is_printable data 0x000 3 then logfile_unpack_str data 0x000 3
    else if logfile_is_printable data 0x00d 3 then logfile_unpack_str data 0x00d 3
    else if pyContains (pyUpper file_path) "MBB" then some "MBB"
    else if pyContains (pyUpper file_path) "BMS" then some "BMS"
    else none
  match log_type with
  | some t => if t = "MBB" || t = "BMS" then t else "Unknown Type"
  | none => "Unknown Type"

/-- The generation selection of `LogData.get_version_and_header`: for the
MBB kind (or unknown) probe the three fixed VIN offsets in order; for the
BMS kind map the discriminator byte at `0x004`; unmatched values keep the
`REV0` default (with a warning). -/
def get_log_version (data : List Nat) (log_type : String) : Nat :=
  if log_type = "MBB" || log_type = "Unknown Type" then
    let vin_v0 := (logfile_unpack_str data 0x240 17).getD ""
    let vin_v1 := (logfile_unpack_str data 0x252 17).getD ""
    let vin_v2 := (logfile_unpack_str_latin1 data 0x029 17).getD ""
    if is_vin vin_v0 then REV0
    else if is_vin vin_v1 then REV1
    else if is_vin vin_v2 then REV2
    else REV0
  else
    let log_version_code := unpackNat "uint8" data 0x4
    if log_version_code = 0xb6 then REV0
    else if log_version_code = 0xde then REV1
    else if log_version_code = 0x79 then REV2
    else REV0

/-! ### Gen3: `payload_to_entry`, the free-text condition decomposition -/

/-- The Gen3 decoded entry (`Gen3.Entry`).  `time` keeps the raw big-endian
Unix timestamp: the source turns it into a `datetime` via the
locale-dependent `datetime.fromtimestamp`, which no claim inspects. -/
structure Gen3Entry where
  event : String
  time : Nat
  conditions : String
  uninterpreted : String
  deriving DecidableEq, Repr

/-- `Gen3.entry_data_fencepost`, the `(0x00, 0xB2)` sub-delimiter. -/
def entry_data_fencepost : List Nat := [0x00, 0xb2]

/-- OrderedDict assignment: update an existing key in place, else append. -/
def odSet (m : List (String × String)) (k v : String) : List (String × String) :=
  if (m.find? (fun p => p.1 = k)).isSome then
    m.map (fun p => if p.1 = k then (k, v) else p)
  else m ++ [(k, v)]

/-- The two groups of the greedy `\((.*)\)(.*)` once a `"X_("` start is
known: text between the opening bracket (index 2) and the *last* closing
bracket, and the text after it; `none` when no closing bracket exists. -/
def parenGroupsAfter3 (s : String) : Option (String × String) :=
  match charSubIndexLast [')'] s.data with
  | none => none
  | some j => some (String.mk ((s.data.drop 3).take (j - 3)), String.mk (s.data.drop (j + 1)))

/-- The `'name (detail)'` pattern `([^()]+) \(([^()]+)\)` matched at the
string start (trailing text permitted, as with `re.match`): the first
bracket character must be `'('` at index ≥ 2 preceded by a blank, and the
next bracket character after it must be `')'` with at least one character
between. -/
def nameDetail (s : String) : Option (String × String) :=
  let d := s.data
  match d.findIdx? (fun c => c == '(' || c == ')') with
  | none => none
  | some i =>
    if d.getD i ' ' == '(' && decide (2 ≤ i) && d.getD (i - 1) '_' == ' ' then
      let rest := d.drop (i + 1)
      match rest.findIdx? (fun c => c == '(' || c == ')') with
      | none => none
      | some j =>
        if rest.getD j ' ' == ')' && decide (1 ≤ j) then
          some (String.mk (d.take (i - 1)), String.mk (rest.take j))
        else none
    else none

/-- Hexadecimal digit test for the `0x[0-9a-fA-F]+` groups. -/
def hexDigitChar (c : Char) : Bool :=
  (48 ≤ c.toNat && c.toNat ≤ 57) || (97 ≤ c.toNat && c.toNat ≤ 102) ||
    (65 ≤ c.toNat && c.toNat ≤ 70)

/-- Value of a hexadecimal digit character. -/
def hexDigitVal (c : Char) : Nat :=
  if c.toNat ≤ 57 then c.toNat - 48
  else if 97 ≤ c.toNat then c.toNat - 87
  else c.toNat - 55

/-- `int(text, 16)` over hex digits. -/
def hexVal (l : List Char) : Nat := l.foldl (fun a c => a * 16 + hexDigitVal c) 0

/-- The pattern `Old: (0x[0-9a-fA-F]+) New: (0x[0-9a-fA-F]+)` anchored at
index `i`: both hex runs are the maximal nonempty digit runs (a shorter,
backtracked run would put a digit where the literal blank must sit). -/
def oldNewMatchAt (d : List Char) (i : Nat) : Option (List Char × List Char) :=
  if (d.drop i).take 7 = "Old: 0x".data then
    let r1 := (d.drop (i + 7)).takeWhile hexDigitChar
    if r1 = [] then none
    else
      let after1 := d.drop (i + 7 + r1.length)
      if after1.take 8 = " New: 0x".data then
        let r2 := (after1.drop 8).takeWhile hexDigitChar
        if r2 = [] then none else some (r1, r2)
      else none
  else none

/-- `re.search` of the `Old:`/`New:` pattern: the leftmost start position at
which the anchored pattern matches. -/
def oldNewSearch (d : List Char) : Option (List Char × List Char) :=
  match (List.range (d.length + 1)).find? (fun i => (oldNewMatchAt d i).isSome) with
  | some i => oldNewMatchAt d i
  | none => none

/-- `Gen3.payload_to_entry` (with the default `hex_on_error=False`, as both
emitters call it).  Fails exactly when the `unpack_str` of bytes 7.. raises
(payload shorter than 7 bytes makes the repeat count negative).  The regex
`.`-excludes-newline subtlety only matters for newline-bearing message text,
which the greedy-group model here does not chase. -/
def payload_to_entry (entry_payload : List Nat) : Option Gen3Entry :=
  let timestamp_int := beUintOfBytes (entry_payload.take 4)
  match unpack_str entry_payload 7 ((entry_payload.length : Int) - 7) 0 with
  | none => none
  | some raw0 =>
    let payload_string := pyStrip raw0
    let data_payload : Option (List Nat) :=
      match index_of_sequence entry_payload entry_data_fencepost 0 with
      | some data_fencepost => some (entry_payload.drop (data_fencepost + 2))
      | none => none
    let step1 : String × String × List (String × String) :=
      if payload_string.data.length < 2 then (payload_string, "", [])
      else if pyContains payload_string ". " then
        let sentences := pySplit payload_string ". "
        ((if sentences.length > 2 then pyJoin ". " sentences.dropLast
          else sentences.headD ""),
         (sentences.getLast?).getD "", [])
      else if pyStartswith payload_string "I_(" then
        match parenGroupsAfter3 payload_string with
        | none => (payload_string, "", [])
        | some (inner, tail) =>
          ("Current", "",
           (pySplit inner ", ").foldl (fun acc part =>
             let sp := pySplitOnce part ": "
             if sp.1 then odSet acc ("I_" ++ sp.2.1) (sp.2.2 ++ tail) else acc) [])
      else if pyContains payload_string ": " then
        let sp := pySplitOnce payload_string ": "
        (sp.2.1, sp.2.2, [])
      else if pyContains payload_string " = " then
        let sp := pySplitOnce payload_string " = "
        (sp.2.1, sp.2.2, [])
      else if pyContains payload_string " from " && pyContains payload_string " to " then
        let sp := pySplitOnce payload_string " from "
        match charSubIndexLast " to ".data sp.2.2.data with
        | some i =>
          (sp.2.1, "",
           odSet (odSet [] "from" (String.mk (sp.2.2.data.take i)))
             "to" (String.mk (sp.2.2.data.drop (i + 4))))
        | none => (sp.2.1, sp.2.2, [])
      else
        match nameDetail payload_string with
        | some (nm, detail) => (nm, detail, [])
        | none => (payload_string, "", [])
    let event_message := step1.1
    let ec1 := step1.2.1
    let conds1 := step1.2.2
    let step2 : String × List (String × String) :=
      if pyStartswith ec1 "V_(" then
        match parenGroupsAfter3 ec1 with
        | none => (ec1, conds1)
        | some (inner, tail0) =>
          let tail := pyRstripChar tail0 ','
          (inner,
           (pySplit inner ", ").foldl (fun acc part =>
             let sp := pySplitOnce part ": "
             if sp.1 then odSet acc ("V_" ++ sp.2.1) (sp.2.2 ++ tail) else acc) conds1)
      else if pyContains ec1 "Old: " && pyContains ec1 "New: " then
        match oldNewSearch ec1.data with
        | some (r1, r2) =>
          let old_int := hexVal r1
          let new_int := hexVal r2
          let old_bits := binDigits old_int
          let new_bits := binDigits new_int
          let bits :=
            if new_bits.data.length ≠ old_bits.data.length then
              let max_len := max new_bits.data.length old_bits.data.length
              (fmtBinZero old_int max_len, fmtBinZero new_int max_len)
            else (old_bits, new_bits)
          (ec1, odSet (odSet conds1 "old" bits.1) "new" bits.2)
        | none => (ec1, conds1)
      else if pyContains ec1 ", " then
        (ec1,
         ((pySplit ec1 ", ").map pyStrip).foldl (fun acc part =>
           let sp := pySplitOnce part ": "
           if sp.1 then odSet acc sp.2.1 sp.2.2
           else
             match pySplit part " " with
             | [k, v] => odSet acc k v
             | _ => odSet acc part "") conds1)
      else (ec1, conds1)
    let conditions_str :=
      if step2.2.length > 0 then
        pyJoin ", " (step2.2.map (fun p =>
          if p.1 ≠ "" && p.2 ≠ "" then p.1 ++ ": " ++ p.2
          else if p.1 ≠ "" then p.1 else p.2))
      else step2.1
    some
      { event := event_message
        time := timestamp_int
        conditions := conditions_str
        uninterpreted :=
          match data_payload with
          | some l => if l ≠ [] then display_bytes_hex l else ""
          | none => "" }

/-! ### Helper lemmas for the escape codec -/

theorem ubc_cons_nonmarker (b : Nat) (l : List Nat) (hb : b ≠ 0xfe) :
    unescape_block_count (b :: l) =
      (unescape_block_count l).map (fun p => (b :: p.1, p.2)) := by
  cases l with
  | nil => simp [unescape_block_count]
  | cons f rest => simp [unescape_block_count, hb]

theorem ubc_marker_pair (f : Nat) (l : List Nat) (hf : f ≠ 0) :
    unescape_block_count (0xfe :: f :: l) =
      (unescape_block_count l).map (fun p => ((0xfe ^^^ (f - 1)) :: p.1, p.2 + 1)) := by
  simp [unescape_block_count, hf]

theorem ubc_escape (d : List Nat) :
    ∃ k, unescape_block_count (escape_block d) = some (d, k) := by
  induction d with
  | nil => exact ⟨0, rfl⟩
  | cons b t ih =>
    obtain ⟨k, hk⟩ := ih
    by_cases hb : b = 0xfe
    · subst hb
      refine ⟨k + 1, ?_⟩
      have h1 : escape_block (0xfe :: t) = 0xfe :: 0x01 :: escape_block t := by
        simp [escape_block]
      rw [h1, ubc_marker_pair 0x01 _ (by decide), hk]
      simp
    · refine ⟨k, ?_⟩
      have h1 : escape_block (b :: t) = b :: escape_block t := by
        simp [escape_block, hb]
      rw [h1, ubc_cons_nonmarker b _ hb, hk]
      rfl

theorem ubc_no_marker_append (d : List Nat) (hd : ∀ b ∈ d, b ≠ 0xfe) :
    unescape_block_count (d ++ [0xfe]) = some (d ++ [0xfe], 0) := by
  induction d with
  | nil => rfl
  | cons b t ih =>
    have hb : b ≠ 0xfe := hd b (by simp)
    have ih2 := ih (fun x hx => hd x (by simp [hx]))
    rw [List.cons_append, ubc_cons_nonmarker b _ hb, ih2]
    rfl

/-- Claim C5: decoding is idempotent after one escape pass — re-escaping a
block decoded by `unescape_block` with the inverse byte-stuffing transform
(`escape_block`, each reserved byte as the pair `(0xFE, f)` with
`0xFE XOR (f − 1)` restoring it) and decoding again yields the same decoded
bytes. -/
theorem c5_escape_roundtrip (x d : List Nat) (_h : unescape_block x = some d) :
    unescape_block (escape_block d) = some d := by
  obtain ⟨k, hk⟩ := ubc_escape d
  simp [unescape_block, hk]

/-- Witness for C5 at the concrete block `[0xFE, 0x01]`, which decodes to
`[0xFE]` and survives the escape/unescape round trip. -/
theorem c5_escape_roundtrip_witness :
    unescape_block (escape_block [0xfe]) = some [0xfe] :=
  c5_escape_roundtrip [0xfe, 0x01] [0xfe] (by decide)

/-- Claim C10: `unescape_block` never lengthens its input — the output
length plus the number of escape pairs replaced equals the input length —
and a `0xFE` marker sitting at the end of the block with no following byte
is kept in the output unchanged (shown for blocks whose other bytes are not
markers, so the scan reaches the final byte). -/
theorem c10_unescape_length_and_tail :
    (∀ d out k, unescape_block_count d = some (out, k) → out.length + k = d.length) ∧
    (∀ d, (∀ b ∈ d, b ≠ 0xfe) → unescape_block (d ++ [0xfe]) = some (d ++ [0xfe])) := by
  constructor
  · intro d
    induction d using unescape_block_count.induct with
    | case1 =>
      intro out k h
      simp [unescape_block_count] at h
      simp [← h.1, ← h.2]
    | case2 b =>
      intro out k h
      simp [unescape_block_count] at h
      simp [← h.1, ← h.2]
    | case3 rest =>
      intro out k h
      simp [unescape_block_count] at h
    | case4 f rest hf ih =>
      intro out k h
      rw [ubc_marker_pair f rest hf] at h
      cases hrec : unescape_block_count rest with
      | none => rw [hrec] at h; simp at h
      | some p =>
        rw [hrec] at h
        simp at h
        have hlen := ih p.1 p.2 (by rw [hrec])
        simp only [List.length_cons] at hlen ⊢
        simp [← h.1, ← h.2]
        omega
    | case5 b f rest hb ih =>
      intro out k h
      rw [ubc_cons_nonmarker b _ hb] at h
      cases hrec : unescape_block_count (f :: rest) with
      | none => rw [hrec] at h; simp at h
      | some p =>
        rw [hrec] at h
        simp at h
        have hlen := ih p.1 p.2 (by rw [hrec])
        simp only [List.length_cons] at hlen ⊢
        simp [← h.1, ← h.2]
        omega
  · intro d hd
    simp [unescape_block, ubc_no_marker_append d hd]

/-- Witness for C10: the block `[0xFE, 0x02, 0x07]` decodes to
`[0xFF, 0x07]` with one pair replaced (length 2 + 1 = 3), and the trailing
marker of `[1, 2, 0xFE]` is kept. -/
theorem c10_unescape_length_and_tail_witness :
    (([0xff, 0x07] : List Nat).length + 1 = ([0xfe, 0x02, 0x07] : List Nat).length) ∧
    unescape_block ([1, 2] ++ [0xfe]) = some ([1, 2] ++ [0xfe]) :=
  ⟨c10_unescape_length_and_tail.1 [0xfe, 0x02, 0x07] [0xff, 0x07] 1 (by decide),
   c10_unescape_length_and_tail.2 [1, 2] (by decide)⟩

/-! ### C7: fencepost counter increment -/

theorem next_fencepost_value_cases :
    ∀ v : Nat, v < 0x100 → 1 ≤ v →
      (next_fencepost_value v ≠ 0x00 ∧ next_fencepost_value v ≠ 0xfe) ∧
      ((1 ≤ next_fencepost_value v ∧ next_fencepost_value v ≤ 0xfd) ∨
        next_fencepost_value v = 0xff) ∧
      next_fencepost_value v =
        (if v = 0xfd then 0xff else if v = 0xff then 0x01 else v + 1) := by
  decide

/-- Claim C7: for every counter byte `V` in `[0x01, 0xFF]` the fencepost
increment produces neither `0x00` nor `0xFE`, lands in
`[0x01, 0xFD] ∪ {0xFF}`, and is `V + 1` except that `0xFD` goes to `0xFF`
(skipping `0xFE`) and `0xFF` wraps to `0x01`. -/
theorem c7_fencepost_increment (v : Nat) (h1 : 1 ≤ v) (h2 : v ≤ 0xff) :
    (next_fencepost_value v ≠ 0x00 ∧ next_fencepost_value v ≠ 0xfe) ∧
    ((1 ≤ next_fencepost_value v ∧ next_fencepost_value v ≤ 0xfd) ∨
      next_fencepost_value v = 0xff) ∧
    next_fencepost_value v =
      (if v = 0xfd then 0xff else if v = 0xff then 0x01 else v + 1) :=
  next_fencepost_value_cases v (by omega) h1

/-- Witness for C7 at `V = 0xFD` (the skip case). -/
theorem c7_fencepost_increment_witness :
    (next_fencepost_value 0xfd ≠ 0x00 ∧ next_fencepost_value 0xfd ≠ 0xfe) ∧
    ((1 ≤ next_fencepost_value 0xfd ∧ next_fencepost_value 0xfd ≤ 0xfd) ∨
      next_fencepost_value 0xfd = 0xff) ∧
    next_fencepost_value 0xfd =
      (if 0xfd = 0xfd then 0xff else if (0xfd : Nat) = 0xff then 0x01 else 0xfd + 1) :=
  c7_fencepost_increment 0xfd (by decide) (by decide)

/-! ### C6: the VIN validator -/

/-- Counterexample to C6's concrete examples: `"53812345678901234"` has
exactly 17 characters and is *accepted* (the claim calls it too long and
rejected), while `"5381234567890123"` has 16 characters and is *rejected*
(the claim calls it a 17-character accepted VIN). -/
theorem c6_counterexample :
    is_vin "53812345678901234" = true ∧
    ("53812345678901234" : String).data.length = 17 ∧
    is_vin "5381234567890123" = false ∧
    ("5381234567890123" : String).data.length = 16 := by
  decide

/-- Claim C6 (amended): `is_vin` accepts a string iff it is printable,
exactly 17 characters long and starts with `"538"`; the example strings of
the claim fall on the opposite sides: the 17-character
`"53812345678901234"` is accepted and the 16-character
`"5381234567890123"` is rejected. -/
theorem c6_vin_rule :
    (∀ s : String, is_vin s = true ↔
      ((∀ c ∈ s.data, pyPrintableChar c = true) ∧ s.data.length = 17 ∧
        s.data.take 3 = ['5', '3', '8'])) ∧
    is_vin "53812345678901234" = true ∧ is_vin "5381234567890123" = false := by
  refine ⟨?_, by decide, by decide⟩
  intro s
  have h538 : ("538" : String).data = ['5', '3', '8'] := by decide
  simp [is_vin, is_printable, pyStartswith, vinGuaranteedStart, vin_length,
    List.all_eq_true, h538, and_assoc]

/-! ### C3: zero padding of `BinaryTools.unpack` -/

theorem leUintOfBytes_replicate_zero (m : Nat) :
    leUintOfBytes (List.replicate m 0) = 0 := by
  induction m with
  | zero => rfl
  | succ n ih => simp [List.replicate_succ, leUintOfBytes, ih]

/-- All-zero bytes decode to the zero of every format character. -/
theorem decodeElem_replicate_zero (c : Char) (m : Nat) :
    decodeElem c (List.replicate m 0) = decodeElem c [] := by
  simp [decodeElem, List.take_replicate, leUintOfBytes_replicate_zero, leUintOfBytes]

/-- The zero value a fully-padded read returns for a format character. -/
def zeroPyVal (c : Char) (count : Nat) : PyVal :=
  if c = 's' then .bytes (List.replicate count 0) else decodeElem c []

theorem drop_take_padding (buff : List Nat) (addr sz : Nat)
    (h1 : buff.length ≤ addr) (h2 : addr + sz ≤ buff.length + 32) :
    ((buff ++ List.replicate 32 0).drop addr).take sz = List.replicate sz 0 := by
  have ha : addr = buff.length + (addr - buff.length) := by omega
  rw [ha, List.drop_append, List.drop_replicate, List.take_replicate]
  congr 1
  omega

/-- Claim C3 (amended): a read of any supported type that ends within the
32-byte conceptual zero padding past the real buffer end does not fail, and
a read lying entirely past the real end returns the type's zero value;
reads escaping the padding (see the counterexample) still fail. -/
theorem c3_unpack_zero_padding (ty : String) (c : Char) (buff : List Nat)
    (address count : Nat) (hty : TYPES (pyLower ty) = some c) (hcnt : 1 ≤ count)
    (hsz : address + structCalcsize c count ≤ buff.length + 32) :
    (unpack ty buff address (count : Int) 0).isSome = true ∧
    (buff.length ≤ address → unpack ty buff address (count : Int) 0 = some (zeroPyVal c count)) := by
  have hcore : unpack ty buff address (count : Int) 0 = unpackCore c buff (address + 0) count := by
    unfold unpack
    rw [hty]
  have hneg : ¬ ((count : Int) < 0) := by omega
  have hexp : unpackCore c buff (address + 0) (count : Int) =
      (if c = 's' then
        some (.bytes (((buff ++ List.replicate 32 0).drop address).take (structCalcsize c count)))
       else if count = 0 then none
       else some (decodeElem c ((((buff ++ List.replicate 32 0).drop address).take
         (structCalcsize c count)).take (structElemSize c)))) := by
    unfold unpackCore
    rw [if_neg hneg]
    simp only [Int.toNat_natCast, List.length_append, List.length_replicate, Nat.add_zero]
    rw [if_neg (by omega)]
  rw [hcore, hexp]
  by_cases hs : c = 's'
  · subst hs
    refine ⟨by simp, fun hpad => ?_⟩
    simp only [if_pos rfl]
    rw [drop_take_padding buff address _ hpad hsz]
    simp [zeroPyVal, structCalcsize]
  · refine ⟨?_, fun hpad => ?_⟩
    · rw [if_neg hs, if_neg (by omega)]
      rfl
    · rw [if_neg hs, if_neg (by omega), drop_take_padding buff address _ hpad hsz,
        List.take_replicate, decodeElem_replicate_zero]
      simp [zeroPyVal, hs]

/-- Counterexample to C3 as stated: the address 33 with count 1 runs past
the end of an empty buffer by more than the 32 padding bytes, and the read
fails (`struct.error`) instead of returning zero. -/
theorem c3_counterexample : unpack "uint8" [] 33 1 0 = none := by decide

/-- Witness for C3 (amended) at a `uint32` read entirely inside the padding
of an empty buffer. -/
theorem c3_unpack_zero_padding_witness :
    (unpack "uint32" [] 5 ((1 : Nat) : Int) 0).isSome = true ∧
    (([] : List Nat).length ≤ 5 → unpack "uint32" [] 5 ((1 : Nat) : Int) 0 =
      some (zeroPyVal 'L' 1)) :=
  c3_unpack_zero_padding "uint32" 'L' [] 5 1 (by decide) (by decide) (by decide)

/-! ### C4: the ring-buffer wraparound rule -/

/-- The spec's phrase "bytes `[a, b)` of the buffer": drop the first `a`
bytes and keep the next `b − a`. -/
def specByteRange (raw : List Nat) (a b : Nat) : List Nat := (raw.drop a).take (b - a)

/-- The spec's wraparound rule for the logical event-log sequence: when
`start ≥ end` the bytes `[start, buffer_end)` followed by the bytes
`[data_region_begin, end)`, otherwise plainly the bytes `[start, end)`. -/
def specLogicalSeq (raw : List Nat) (entries_start entries_end entries_data_begin : Nat) :
    List Nat :=
  if entries_start ≥ entries_end then
    specByteRange raw entries_start raw.length ++
      specByteRange raw entries_data_begin entries_end
  else specByteRange raw entries_start entries_end

theorem pySlice_eq_specByteRange (l : List Nat) (a b : Nat) :
    pySlice l a b = specByteRange l a b := by
  simp [pySlice, specByteRange, List.drop_take]

theorem pyDrop_eq_specByteRange (l : List Nat) (a : Nat) :
    pyDrop l a = specByteRange l a l.length := by
  unfold pyDrop specByteRange
  rw [List.take_of_length_le (by simp)]

/-- The code's event log construction agrees with the spec's description. -/
theorem gen2EventLog_eq_spec (raw : List Nat) (ee es db : Nat) :
    gen2EventLog raw ee es db = specLogicalSeq raw es ee db := by
  unfold gen2EventLog specLogicalSeq
  by_cases h : es ≥ ee
  · rw [if_pos h, if_pos h, pyDrop_eq_specByteRange, pySlice_eq_specByteRange]
  · rw [if_neg h, if_neg h, pySlice_eq_specByteRange]

/-- Claim C4: for a Rev0/Rev1 log whose ring parameters the source derives
(`gen2RingParams`), the logical event-log byte sequence produced by
`get_entries_and_counts` is exactly the spec's wraparound-resolved sequence:
bytes `[start, buffer_end) ++ [data_region_begin, end)` when
`start ≥ end`, else the plain slice `[start, end)`. -/
theorem c4_wraparound_rule (raw : List Nat) (ee es db cl : Nat)
    (h : gen2RingParams raw = .ok (ee, es, db, cl)) :
    get_entries_and_counts_gen2 raw =
      .ok (countByte (specLogicalSeq raw es ee db) 0xb2, specLogicalSeq raw es ee db) := by
  unfold get_entries_and_counts_gen2
  rw [h]
  show Except.ok (countByte (gen2EventLog raw ee es db) 0xb2, gen2EventLog raw ee es db) = _
  rw [gen2EventLog_eq_spec]

/-- Witness for C4 on a concrete wrapped ring (start 8 ≥ end 5): the header
sentinel sits at offset 0, the logical sequence is the tail from 8 followed
by the empty region `[16, 5)`, holding three delimiter bytes. -/
theorem c4_wraparound_rule_witness :
    get_entries_and_counts_gen2
        [0xa2, 0xa2, 0xa2, 0xa2, 5, 0, 0, 0, 8, 0, 0, 0, 0, 0, 0, 0,
         0xb2, 0xb2, 0, 0xb2] =
      .ok (countByte (specLogicalSeq
            [0xa2, 0xa2, 0xa2, 0xa2, 5, 0, 0, 0, 8, 0, 0, 0, 0, 0, 0, 0,
             0xb2, 0xb2, 0, 0xb2] 8 5 16) 0xb2,
          specLogicalSeq
            [0xa2, 0xa2, 0xa2, 0xa2, 5, 0, 0, 0, 8, 0, 0, 0, 0, 0, 0, 0,
             0xb2, 0xb2, 0, 0xb2] 8 5 16) :=
  c4_wraparound_rule _ 5 8 16 0 rfl

/-! ### C2: delimiter count vs. emitted entries -/

theorem gen2EmitLoop_length (event_log : List Nat) (tz : Option Int) :
    ∀ (n read_pos u : Nat) (l : List Gen2Decoded) (u2 : Nat),
      gen2EmitLoop event_log read_pos n u tz = .ok (l, u2) → l.length = n := by
  intro n
  induction n with
  | zero =>
    intro read_pos u l u2 h
    simp [gen2EmitLoop] at h
    simp [← h.1]
  | succ m ih =>
    intro read_pos u l u2 h
    unfold gen2EmitLoop at h
    split at h
    · cases h
    · split at h
      · cases h
      · rename_i len entry u3 heq rest u4 heq2
        cases h
        simp [ih _ _ _ _ heq2]

theorem get_entries_count_gen2 (raw : List Nat) (cnt : Nat) (elog : List Nat)
    (h : get_entries_and_counts_gen2 raw = .ok (cnt, elog)) :
    cnt = countByte elog 0xb2 := by
  unfold get_entries_and_counts_gen2 at h
  cases hp : gen2RingParams raw with
  | error e => rw [hp] at h; cases h
  | ok q =>
    rw [hp] at h
    obtain ⟨ee, es, db, cl⟩ := q
    cases h
    rfl

/-- Claim C2 (amended): for a Rev0/Rev1 log, whenever the record-emission
loop completes without raising, the number of decoded entries it emits
equals the count of `0xB2` delimiter bytes in the wraparound-resolved
logical sequence (the `entries_count` the segmenter derives); a record
whose body holds `0xFE` followed by `0x00` makes `unescape_block` raise and
aborts emission instead (see the counterexample). -/
theorem c2_entry_count_matches_delimiters (ver : Nat) (raw : List Nat)
    (tz : Option Int) (cnt : Nat) (elog : List Nat) (u : Nat)
    (l : List Gen2Decoded) (u2 : Nat) (hver : ver < REV2)
    (hentries : get_entries_and_counts ver raw = .ok (cnt, .gen2 elog))
    (hemit : gen2EmitLoop elog 0 cnt u tz = .ok (l, u2)) :
    l.length = cnt ∧ cnt = countByte elog 0xb2 := by
  have hgen2 : get_entries_and_counts_gen2 raw = .ok (cnt, elog) := by
    unfold get_entries_and_counts at hentries
    rw [if_pos hver] at hentries
    cases hp : get_entries_and_counts_gen2 raw with
    | error e => rw [hp] at hentries; cases hentries
    | ok q =>
      rw [hp] at hentries
      obtain ⟨n, log⟩ := q
      cases hentries
      rfl
  exact ⟨gen2EmitLoop_length elog tz cnt 0 u l u2 hemit,
    get_entries_count_gen2 raw cnt elog hgen2⟩

/-- Counterexample to C2 as stated: the Rev0 log `B2 04 FE 00` has one
delimiter byte, but parsing its single record feeds `FE 00` to
`unescape_block`, which raises -- emission aborts and no entry list is
produced, so no count equality can hold. -/
theorem c2_counterexample :
    get_entries_and_counts REV0 [0xb2, 0x04, 0xfe, 0x00] =
      .ok (1, .gen2 [0xb2, 0x04, 0xfe, 0x00]) ∧
    gen2EmitLoop [0xb2, 0x04, 0xfe, 0x00] 0 1 0 (some MBB_TIMESTAMP_GMT_OFFSET) =
      .error "ValueError: byte must be in range(0, 256)" :=
  ⟨rfl, rfl⟩

/-- Witness for C2 (amended) on a one-record log (`key_state`), where the
loop emits exactly one entry for the one delimiter byte. -/
theorem c2_entry_count_matches_delimiters_witness :
    ([⟨"Key Off", none, "0"⟩] : List Gen2Decoded).length = 1 ∧
    1 = countByte [0xb2, 7, 0x09, 0, 0, 0, 0] 0xb2 :=
  c2_entry_count_matches_delimiters REV0 [0xb2, 7, 0x09, 0, 0, 0, 0]
    (some MBB_TIMESTAMP_GMT_OFFSET) 1 [0xb2, 7, 0x09, 0, 0, 0, 0] 0
    [⟨"Key Off", none, "0"⟩] 0 (by decide) rfl rfl

/-! ### C1: totality of record decoding vs. decode-terminating conditions -/

/-- Claim C1 (amended): Rev0/Rev1 record-decode failures are caught locally
— whenever the record's unescape and timestamp render succeed,
`parse_entry` returns an entry no matter what the registry decoder does (at
most bumping the unhandled counter by one).  The decode as a whole is *not*
total: Gen3 segmentation raises when no fencepost exists (see the
counterexample) and `unescape_block` raises on `0xFE 0x00`. -/
theorem c1_record_failures_caught (log_data : List Nat) (address u : Nat)
    (tz : Option Int) (blk : List Nat) (t : String)
    (hu : unescape_block (entry_block log_data address) = some blk)
    (ht : timestamp_from_event blk tz = some t) :
    ∃ entry u2, parse_entry log_data address u tz =
        .ok (entry_length_byte log_data address, entry, u2) ∧ (u2 = u ∨ u2 = u + 1) := by
  cases hdec : parsers (type_from_block blk) with
  | none =>
    refine ⟨{ event := (unhandled_entry_format (type_from_block blk) (blk.drop 0x05)).event,
              conditions := (unhandled_entry_format (type_from_block blk) (blk.drop 0x05)).conditions,
              time := t }, u, ?_, Or.inl rfl⟩
    simp only [parse_entry, hu, hdec, ht]
  | some dec =>
    cases hres : dec (blk.drop 0x05) with
    | none =>
      refine ⟨{ event := "Exception caught: " ++
                  (unhandled_entry_format (type_from_block blk) (blk.drop 0x05)).event,
                conditions := (unhandled_entry_format (type_from_block blk) (blk.drop 0x05)).conditions,
                time := t }, u + 1, ?_, Or.inr rfl⟩
      simp only [parse_entry, hu, hdec, hres, ht]
    | some entry =>
      refine ⟨{ event := entry.event, conditions := entry.conditions, time := t }, u,
        ?_, Or.inl rfl⟩
      simp only [parse_entry, hu, hdec, hres, ht]

/-- The concrete Gen3 input for the C1 counterexample: classified `BMS` by
its 3-byte tag, discriminator byte `0x79` selects Rev2, and no 3-byte
fencepost `(B0, non-newline, B2)` with `B0 = raw[0x0A] = 0x0A`,
`B2 = raw[0x0C] = 0x0C` occurs. -/
def gen3NoFencepostRaw : List Nat :=
  [0x42, 0x4d, 0x53, 0, 0x79, 0, 0, 0, 0, 0, 0x0a, 0x0a, 0x0c, 0, 0, 0]

/-- Counterexample to C1 as stated: a file the engine classifies as a Rev2
BMS log on which `get_gen3_entries` raises its bare `ValueError`,
terminating the whole decode. -/
theorem c1_counterexample :
    get_log_type gen3NoFencepostRaw "log.bin" = "BMS" ∧
    get_log_version gen3NoFencepostRaw "BMS" = REV2 ∧
    get_entries_and_counts REV2 gen3NoFencepostRaw = .error "ValueError" :=
  ⟨rfl, rfl, rfl⟩

/-- Witness for C1 (amended) on a record with the unregistered type 0x99. -/
theorem c1_record_failures_caught_witness :
    ∃ entry u2, parse_entry [0xb2, 9, 0x99, 0, 0, 0, 0, 0xaa, 0xbb] 0 0 (some 0) =
        .ok (entry_length_byte [0xb2, 9, 0x99, 0, 0, 0, 0, 0xaa, 0xbb] 0, entry, u2) ∧
      (u2 = 0 ∨ u2 = 0 + 1) :=
  c1_record_failures_caught [0xb2, 9, 0x99, 0, 0, 0, 0, 0xaa, 0xbb] 0 0 (some 0)
    [0x99, 0, 0, 0, 0, 0xaa, 0xbb] "0" rfl rfl

/-! ### C8: hex-dump fallback and exception fallback -/

/-- Python `str.endswith`. -/
def pyEndswith (s suf : String) : Bool :=
  s.data.drop (s.data.length - suf.data.length) = suf.data

/-- Claim C8: an unregistered message-type code yields the hex-dump
fallback entry — event `'0x.. '` plus the space-separated payload dump,
conditions `chr(code) + '???'` (ending in the `'???'` sentinel) — without
touching the unhandled counter; a registered decoder that raises yields the
same fallback with the event prefixed `'Exception caught: '` and the
unhandled counter incremented, and `parse_entry` still returns normally so
subsequent records decode. -/
theorem c8_fallback_forms :
    (∀ (log_data : List Nat) (address u : Nat) (tz : Option Int) (blk : List Nat)
        (t : String),
      unescape_block (entry_block log_data address) = some blk →
      timestamp_from_event blk tz = some t →
      parsers (type_from_block blk) = none →
      parse_entry log_data address u tz =
        .ok (entry_length_byte log_data address,
          { event := display_bytes_hex [type_from_block blk] ++ " " ++
              display_bytes_hex (blk.drop 0x05)
            conditions := some (String.mk [Char.ofNat (type_from_block blk)] ++ "???")
            time := t }, u) ∧
      pyEndswith (String.mk [Char.ofNat (type_from_block blk)] ++ "???") "???" = true) ∧
    (∀ (log_data : List Nat) (address u : Nat) (tz : Option Int) (blk : List Nat)
        (t : String) (dec : List Nat → Option Gen2Entry),
      unescape_block (entry_block log_data address) = some blk →
      timestamp_from_event blk tz = some t →
      parsers (type_from_block blk) = some dec →
      dec (blk.drop 0x05) = none →
      parse_entry log_data address u tz =
        .ok (entry_length_byte log_data address,
          { event := "Exception caught: " ++
              (unhandled_entry_format (type_from_block blk) (blk.drop 0x05)).event
            conditions := (unhandled_entry_format (type_from_block blk) (blk.drop 0x05)).conditions
            time := t }, u + 1)) := by
  constructor
  · intro log_data address u tz blk t hu ht hreg
    constructor
    · simp only [parse_entry, hu, hreg, ht, unhandled_entry_format]
    · unfold pyEndswith
      simp
  · intro log_data address u tz blk t dec hu ht hreg hfail
    simp only [parse_entry, hu, hreg, hfail, ht]

/-- Witness for C8: type 0x99 (unregistered) gives the hex-dump fallback
untouched, and type 0x30 (`charger_status`) with state byte 5 raises inside
the decoder, giving the prefixed fallback with the counter bumped. -/
theorem c8_fallback_forms_witness :
    (parse_entry [0xb2, 9, 0x99, 0, 0, 0, 0, 0xaa, 0xbb] 0 0 (some 0) =
      .ok (entry_length_byte [0xb2, 9, 0x99, 0, 0, 0, 0, 0xaa, 0xbb] 0,
        { event := display_bytes_hex [type_from_block [0x99, 0, 0, 0, 0, 0xaa, 0xbb]] ++ " " ++
            display_bytes_hex ([0x99, 0, 0, 0, 0, 0xaa, 0xbb].drop 0x05)
          conditions := some (String.mk
            [Char.ofNat (type_from_block [0x99, 0, 0, 0, 0, 0xaa, 0xbb])] ++ "???")
          time := "0" }, 0) ∧
      pyEndswith (String.mk
        [Char.ofNat (type_from_block [0x99, 0, 0, 0, 0, 0xaa, 0xbb])] ++ "???") "???" = true) ∧
    parse_entry [0xb2, 9, 0x30, 0, 0, 0, 0, 0x00, 0x05] 0 5 (some 0) =
      .ok (entry_length_byte [0xb2, 9, 0x30, 0, 0, 0, 0, 0x00, 0x05] 0,
        { event := "Exception caught: " ++
            (unhandled_entry_format (type_from_block [0x30, 0, 0, 0, 0, 0x00, 0x05])
              ([0x30, 0, 0, 0, 0, 0x00, 0x05].drop 0x05)).event
          conditions := (unhandled_entry_format (type_from_block [0x30, 0, 0, 0, 0, 0x00, 0x05])
            ([0x30, 0, 0, 0, 0, 0x00, 0x05].drop 0x05)).conditions
          time := "0" }, 5 + 1) :=
  ⟨c8_fallback_forms.1 [0xb2, 9, 0x99, 0, 0, 0, 0, 0xaa, 0xbb] 0 0 (some 0)
      [0x99, 0, 0, 0, 0, 0xaa, 0xbb] "0" rfl rfl rfl,
   c8_fallback_forms.2 [0xb2, 9, 0x30, 0, 0, 0, 0, 0x00, 0x05] 0 5 (some 0)
      [0x30, 0, 0, 0, 0, 0x00, 0x05] "0" charger_status rfl rfl rfl rfl⟩

/-! ### C9: the Gen3 free-text decomposition example -/

/-- The Gen3 payload carrying the message
`"Contactor Closed: vmod 58.2V, imod 3A"` after its 4-byte big-endian
timestamp and 3 counter/filler bytes. -/
def c9_payload : List Nat :=
  [0x60, 0x11, 0x22, 0x33, 0, 0, 0] ++
    ("Contactor Closed: vmod 58.2V, imod 3A".data.map Char.toNat)

/-- Claim C9: the payload decomposes at `': '` into the event
`"Contactor Closed"` and conditions whose comma-separated two-word parts
become the ordered pairs `vmod → 58.2V`, `imod → 3A`. -/
theorem c9_contactor_closed :
    payload_to_entry c9_payload =
      some { event := "Contactor Closed", time := 0x60112233,
             conditions := "vmod: 58.2V, imod: 3A", uninterpreted := "" } := by
  rfl
